import Mathlib

/-!
Verification development for the ftg-dashboard metrics core.

This file gives a shallow embedding, in Lean 4, of the financial-metrics
code of the repository:

* `public/metrics_etl.py` — the canonical metric calculators
  (`calculate_job_metrics`, `calculate_ar_invoice_metrics`,
  `calculate_ap_invoice_metrics`), the aggregators
  (`aggregate_pm_metrics`, `aggregate_ar_by_customer`,
  `aggregate_ap_by_vendor`, `get_jobs_summary`) and the `MetricsCache`
  refresh sequence.
* `public/server.py` — the query-plan executor `execute_nlq_query`.

Modelling conventions, used consistently below:

* Python floats are modelled as `ℚ` (exact rationals); `round(x, n)` is
  modelled as round-half-up to `n` decimals (`round2`, `round1`), which
  agrees with the source formulas viewed as exact arithmetic.
* A Python value that a numeric field may hold is modelled by `RawVal`
  (`none` models an absent key or JSON `null`, `str` a string value,
  `num` a number).  `float(x or 0)` is modelled by
  `pyFloat (pyOrZero v)`: falsy values (`None`, `""`, `0`) coerce to
  `0`, a non-numeric string makes `float` raise, modelled by
  `Except.error`.
* Python dicts that are used in insertion order are modelled by
  association lists updated with `updAssoc`, which preserves Python's
  dict-order semantics (first insertion fixes the position of a key).
* `list.sort(key=k, reverse=r)` / `sorted(...)` are modelled by the
  stable insertion sort `stableSort`, which has exactly Python's
  stability guarantee.
* String-typed record fields that the source passes through untouched
  (names, descriptions, statuses, dates) are modelled as `String`.
-/

/-- Python `needle in haystack` on strings (substring containment),
as a structurally recursive scan over the character lists. -/
def isSubChars (needle : List Char) : (hay : List Char) → Bool
  | [] => decide (needle = [])
  | c :: rest => needle.isPrefixOf (c :: rest) || isSubChars needle rest

/-- Python `needle in hay` for `String`s. -/
def strContains (hay needle : String) : Bool :=
  isSubChars needle.data hay.data

/-- Python `s.lower()` (ASCII case folding, which is all the source needs). -/
def strLower (s : String) : String :=
  ⟨s.data.map Char.toLower⟩

/-- Python `a.startswith(b)`. -/
def strStartsWith (hay needle : String) : Bool :=
  needle.data.isPrefixOf hay.data

/-- Drop leading whitespace characters. -/
def dropWs : List Char → List Char
  | [] => []
  | c :: r => if c.isWhitespace then dropWs r else c :: r

/-- Python `s.strip()`. -/
def pyStrip (s : String) : String :=
  ⟨((dropWs s.data).reverse |> dropWs).reverse⟩

/-- Split a character list at a separator character (Python `s.split(sep)`). -/
def splitOnChar (sep : Char) : List Char → List (List Char)
  | [] => [[]]
  | c :: r =>
    if c = sep then [] :: splitOnChar sep r
    else
      match splitOnChar sep r with
      | [] => [[c]]
      | h :: t => (c :: h) :: t

/-- Python `s.split(',')` returning strings. -/
def splitCommas (s : String) : List String :=
  (splitOnChar ',' s.data).map (fun l => ⟨l⟩)

/-- Stable insertion of an element into a sorted list:
`x` is placed before the first element `y` with `le x y`. -/
def sortedInsert (le : α → α → Bool) (x : α) : List α → List α
  | [] => [x]
  | y :: ys => if le x y then x :: y :: ys else y :: sortedInsert le x ys

/-- Stable sort, modelling Python's `sorted`/`list.sort`: elements that
compare equal keep their original relative order. For Python's
`reverse=True` use `le a b := key b ≤ key a`. -/
def stableSort (le : α → α → Bool) (l : List α) : List α :=
  l.foldr (sortedInsert le) []

/-- Sort a list in descending order of a rational key (stable), the
model of Python `sorted(..., key=key, reverse=True)`. -/
def sortDescBy (key : α → ℚ) (l : List α) : List α :=
  stableSort (fun a b => decide (key b ≤ key a)) l

/-- Sort a list in ascending order of a rational key (stable). -/
def sortAscBy (key : α → ℚ) (l : List α) : List α :=
  stableSort (fun a b => decide (key a ≤ key b)) l

/-- Update an association list at a key, preserving insertion order:
the model of a Python dict mutation `d[k] = f(d.get(k))`. -/
def updAssoc (k : String) (f : Option β → β) : List (String × β) → List (String × β)
  | [] => [(k, f none)]
  | (k', v) :: rest =>
    if k' = k then (k', f (some v)) :: rest else (k', v) :: updAssoc k f rest

/-- Association-list lookup (Python `d.get(k)`). -/
def lookupAssoc (d : List (String × β)) (k : String) : Option β :=
  match d with
  | [] => none
  | (k', v) :: rest => if k' = k then some v else lookupAssoc rest k

/-- Python `round(x, 2)` on the exact rational model (half rounds up). -/
def round2 (q : ℚ) : ℚ := (round (q * 100) : ℤ) / 100

/-- Python `round(x, 1)` on the exact rational model (half rounds up). -/
def round1 (q : ℚ) : ℚ := (round (q * 10) : ℤ) / 10

/-- Python `int(x)` on a float value: truncation toward zero. -/
def truncQ (q : ℚ) : ℤ := if 0 ≤ q then ⌊q⌋ else ⌈q⌉

/-- A Python value held by a loosely-typed numeric field of a raw
extract record. `none` models both an absent key and JSON `null`. -/
inductive RawVal where
  | none
  | str (s : String)
  | num (q : ℚ)
deriving DecidableEq

/-- Python truthiness of a `RawVal`. -/
def pyTruthy : RawVal → Bool
  | .none => false
  | .str s => decide (s ≠ "")
  | .num q => decide (q ≠ 0)

/-- Python `v or 0`. -/
def pyOrZero (v : RawVal) : RawVal :=
  if pyTruthy v then v else .num 0

/-- Value of a maximal leading digit run together with the remainder
and the number of digits consumed.  Used to parse the fragment of
Python float-literal syntax the extracts use. -/
def grabDigits (acc : ℚ) (count : Nat) : List Char → (ℚ × Nat × List Char)
  | c :: r =>
    if c.isDigit then grabDigits (acc * 10 + ((c.toNat - 48 : ℕ) : ℚ)) (count + 1) r
    else (acc, count, c :: r)
  | [] => (acc, count, [])

/-- Parse the body of a float literal after the optional sign:
`digits [. digits]` or `. digits`. -/
def parseFloatBody (l : List Char) : Option ℚ :=
  let (ip, icount, rest) := grabDigits 0 0 l
  match rest with
  | '.' :: r2 =>
    let (fp, fcount, rest2) := grabDigits 0 0 r2
    if icount + fcount = 0 then none
    else if rest2 = [] then some (ip + fp / (10 ^ fcount : ℚ)) else none
  | [] => if icount = 0 then none else some ip
  | _ => none

/-- Python `float(s)` on a string (the supported literal fragment). -/
def parsePyFloat (s : String) : Option ℚ :=
  match (dropWs s.data).reverse |> dropWs |>.reverse with
  | '-' :: r => (parseFloatBody r).map (fun q => -q)
  | '+' :: r => parseFloatBody r
  | l => parseFloatBody l

/-- Python `float(v)`: numbers pass through, numeric strings parse,
anything else raises (`Except.error`). -/
def pyFloat : RawVal → Except String ℚ
  | .none => .error "float() argument must be a string or a real number, not NoneType"
  | .num q => .ok q
  | .str s =>
    match parsePyFloat s with
    | some q => .ok q
    | Option.none => .error ("could not convert string to float: " ++ s)

/-! ## Job metrics calculator (`metrics_etl.calculate_job_metrics`) -/

/-- A raw job budget record, as consumed by `calculate_job_metrics`.
The four numeric inputs keep their loose Python typing (`RawVal`);
the name/status fields are passed through by the source unchanged and
are modelled as strings (`job_no` models `str(job.get('job_no', ''))`). -/
structure JobRec where
  job_no : String := ""
  job_description : String := ""
  project_manager_name : String := ""
  customer_name : String := ""
  job_status : String := ""
  revised_cost : RawVal := .none
  revised_contract : RawVal := .none
  original_contract : RawVal := .none
  original_cost : RawVal := .none
deriving DecidableEq

/-- The computed job metrics dict returned by `calculate_job_metrics`. -/
structure JobMetrics where
  job_no : String
  job_description : String
  project_manager : String
  customer_name : String
  job_status : String
  original_contract : ℚ
  contract : ℚ
  original_cost : ℚ
  budget_cost : ℚ
  actual_cost : ℚ
  billed : ℚ
  has_budget : Bool
  percent_complete : ℚ
  earned_revenue : ℚ
  backlog : ℚ
  profit : ℚ
  margin : ℚ
  valid_for_profit : Bool
  profit_basis : String
  over_under_billing : ℚ
deriving DecidableEq

/-- `metrics_etl.calculate_job_metrics(job, actual_cost, billed)`.
An `Except.error` models a Python exception escaping the function
(only the four `float(... or 0)` coercions can raise). -/
def calculate_job_metrics (job : JobRec) (actual_cost billed : ℚ) :
    Except String JobMetrics := do
  let job_no := job.job_no
  let budget_cost ← pyFloat (pyOrZero job.revised_cost)
  let contract ← pyFloat (pyOrZero job.revised_contract)
  let original_contract ← pyFloat (pyOrZero job.original_contract)
  let original_cost ← pyFloat (pyOrZero job.original_cost)
  let job_status := job.job_status
  let has_budget := 0 < budget_cost
  let is_closed := job_status = "C"
  let percent_complete : ℚ :=
    if has_budget then
      (if 0 < budget_cost then min ((actual_cost / budget_cost) * 100) 100 else 0)
    else 0
  let earned_revenue : ℚ :=
    if has_budget then
      (if 0 < budget_cost then (actual_cost / budget_cost) * contract else 0)
    else 0
  let backlog := contract - earned_revenue
  let over_under_billing := billed - earned_revenue
  let profit : ℚ := if is_closed then billed - actual_cost else contract - budget_cost
  let margin : ℚ :=
    if is_closed then
      (if 0 < billed then (billed - actual_cost) / billed * 100 else 0)
    else
      (if 0 < contract then (contract - budget_cost) / contract * 100 else 0)
  let valid_for_profit : Bool :=
    if is_closed then decide (0 < billed) && decide (0 < actual_cost)
    else decide (0 < contract) && decide (0 < budget_cost)
  let profit_basis : String := if is_closed then "actual" else "projected"
  return {
    job_no := job_no
    job_description := job.job_description
    project_manager := job.project_manager_name
    customer_name := job.customer_name
    job_status := job_status
    original_contract := original_contract
    contract := contract
    original_cost := original_cost
    budget_cost := budget_cost
    actual_cost := actual_cost
    billed := billed
    has_budget := decide has_budget
    percent_complete := round2 percent_complete
    earned_revenue := round2 earned_revenue
    backlog := round2 backlog
    profit := round2 profit
    margin := round2 margin
    valid_for_profit := valid_for_profit
    profit_basis := profit_basis
    over_under_billing := round2 over_under_billing
  }

/-! ## Invoice metrics calculators -/

/-- Aging-bucket classification shared verbatim by the AR and AP
calculators (both contain the same `days <= 30 / 60 / 90` chain). -/
def agingBucketOf (days : ℤ) : String :=
  if days ≤ 30 then "current"
  else if days ≤ 60 then "days_31_60"
  else if days ≤ 90 then "days_61_90"
  else "days_90_plus"

/-- A raw AR invoice record as consumed by `calculate_ar_invoice_metrics`.
Numeric fields keep their loose typing; `customer_name` and
`project_manager` model `(invoice.get(...) or '')`. -/
structure RawARInvoice where
  invoice_no : String := ""
  customer_name : String := ""
  project_manager_name : String := ""
  job_no : String := ""
  invoice_date : String := ""
  due_date : String := ""
  invoice_amount : RawVal := .none
  calculated_amount_due : RawVal := .none
  retainage_amount : RawVal := .none
  days_outstanding : RawVal := .none
deriving DecidableEq

/-- The computed AR invoice metrics record. -/
structure ARMetric where
  invoice_no : String
  customer_name : String
  project_manager : String
  job_no : String
  invoice_date : String
  due_date : String
  invoice_amount : ℚ
  calculated_amount_due : ℚ
  retainage : ℚ
  collectible : ℚ
  days_outstanding : ℤ
  aging_bucket : String
  total_due : ℚ
deriving DecidableEq

/-- `metrics_etl.calculate_ar_invoice_metrics(invoice)`.
`Except.ok none` models the `return None` exclusion of paid invoices. -/
def calculate_ar_invoice_metrics (invoice : RawARInvoice) :
    Except String (Option ARMetric) := do
  let calc_due ← pyFloat (pyOrZero invoice.calculated_amount_due)
  if calc_due ≤ 0 then
    return none
  let retainage ← pyFloat (pyOrZero invoice.retainage_amount)
  let collectible := max 0 (calc_due - retainage)
  let daysF ← pyFloat (pyOrZero invoice.days_outstanding)
  let days := truncQ daysF
  let aging_bucket := agingBucketOf days
  let invoice_amount ← pyFloat (pyOrZero invoice.invoice_amount)
  return some {
    invoice_no := invoice.invoice_no
    customer_name := pyStrip invoice.customer_name
    project_manager := pyStrip invoice.project_manager_name
    job_no := invoice.job_no
    invoice_date := invoice.invoice_date
    due_date := invoice.due_date
    invoice_amount := invoice_amount
    calculated_amount_due := calc_due
    retainage := retainage
    collectible := round2 collectible
    days_outstanding := days
    aging_bucket := aging_bucket
    total_due := round2 (collectible + retainage)
  }

/-- The fixed AP exclusion allowlist (`EXCLUDED_AP_VENDORS`). -/
def EXCLUDED_AP_VENDORS : List String :=
  ["FTG Builders LLC", "FTG Builders, LLC", "FTG Builders", "FTG BUILDERS LLC"]

/-- A raw AP invoice record as consumed by `calculate_ap_invoice_metrics`. -/
structure RawAPInvoice where
  invoice_no : String := ""
  vendor_name : String := ""
  project_manager_name : String := ""
  job_no : String := ""
  invoice_date : String := ""
  due_date : String := ""
  invoice_amount : RawVal := .none
  remaining_balance : RawVal := .none
  retainage_amount : RawVal := .none
  days_outstanding : RawVal := .none
deriving DecidableEq

/-- The computed AP invoice metrics record. -/
structure APMetric where
  invoice_no : String
  vendor_name : String
  project_manager : String
  job_no : String
  invoice_date : String
  due_date : String
  invoice_amount : ℚ
  remaining_balance : ℚ
  retainage : ℚ
  amount_ex_retainage : ℚ
  days_outstanding : ℤ
  aging_bucket : String
deriving DecidableEq

/-- `metrics_etl.calculate_ap_invoice_metrics(invoice)`. -/
def calculate_ap_invoice_metrics (invoice : RawAPInvoice) :
    Except String (Option APMetric) := do
  let remaining ← pyFloat (pyOrZero invoice.remaining_balance)
  if remaining ≤ 0 then
    return none
  let vendor := pyStrip invoice.vendor_name
  if vendor ∈ EXCLUDED_AP_VENDORS then
    return none
  let retainage ← pyFloat (pyOrZero invoice.retainage_amount)
  let amount_ex_ret := if 0 < retainage then remaining - retainage else remaining
  let daysF ← pyFloat (pyOrZero invoice.days_outstanding)
  let days := truncQ daysF
  let aging_bucket := agingBucketOf days
  let invoice_amount ← pyFloat (pyOrZero invoice.invoice_amount)
  return some {
    invoice_no := invoice.invoice_no
    vendor_name := vendor
    project_manager := pyStrip invoice.project_manager_name
    job_no := invoice.job_no
    invoice_date := invoice.invoice_date
    due_date := invoice.due_date
    invoice_amount := invoice_amount
    remaining_balance := remaining
    retainage := retainage
    amount_ex_retainage := round2 amount_ex_ret
    days_outstanding := days
    aging_bucket := aging_bucket
  }

/-! ## PM aggregation (`metrics_etl.aggregate_pm_metrics`) -/

/-- The fixed case-insensitive PM exclusion (`EXCLUDED_PM`). -/
def EXCLUDED_PM : String := "josh angelo"

/-- The accumulator dict initialised for a new PM key
(the literal starting dict of `aggregate_pm_metrics`). -/
structure PMAcc where
  total_jobs : Nat := 0
  active_jobs : Nat := 0
  jobs_with_budget : Nat := 0
  jobs_valid_for_profit : Nat := 0
  total_contract : ℚ := 0
  total_budget : ℚ := 0
  total_actual : ℚ := 0
  total_billed : ℚ := 0
  total_earned_revenue : ℚ := 0
  total_backlog : ℚ := 0
  total_profit : ℚ := 0
  margin_sum : ℚ := 0
  completion_sum : ℚ := 0
deriving DecidableEq

/-- One job's contribution to its PM accumulator (the body of the
accumulation loop of `aggregate_pm_metrics`). -/
def pmAccAdd (a : PMAcc) (job : JobMetrics) : PMAcc :=
  { a with
    total_jobs := a.total_jobs + 1
    total_contract := a.total_contract + job.contract
    total_budget := a.total_budget + job.budget_cost
    total_actual := a.total_actual + job.actual_cost
    total_billed := a.total_billed + job.billed
    active_jobs := if job.job_status = "A" then a.active_jobs + 1 else a.active_jobs
    jobs_with_budget := if job.has_budget then a.jobs_with_budget + 1 else a.jobs_with_budget
    total_earned_revenue :=
      if job.has_budget then a.total_earned_revenue + job.earned_revenue else a.total_earned_revenue
    total_backlog := if job.has_budget then a.total_backlog + job.backlog else a.total_backlog
    completion_sum :=
      if job.has_budget then a.completion_sum + job.percent_complete else a.completion_sum
    jobs_valid_for_profit :=
      if job.valid_for_profit then a.jobs_valid_for_profit + 1 else a.jobs_valid_for_profit
    total_profit := if job.valid_for_profit then a.total_profit + job.profit else a.total_profit
    margin_sum := if job.valid_for_profit then a.margin_sum + job.margin else a.margin_sum }

/-- The PM key of a job row (`job.get('project_manager', '').strip()`). -/
def pmKey (job : JobMetrics) : String := pyStrip job.project_manager

/-- Whether a job row enters the PM aggregation at all: empty names are
dropped, and with `exclude_josh` the fixed substring exclusion applies. -/
def pmIncluded (exclude_josh : Bool) (job : JobMetrics) : Bool :=
  decide (pmKey job ≠ "") &&
    !(exclude_josh && strContains (strLower (pmKey job)) EXCLUDED_PM)

/-- One step of the `pm_data` dict fold. -/
def pmFoldStep (exclude_josh : Bool) (d : List (String × PMAcc)) (job : JobMetrics) :
    List (String × PMAcc) :=
  if pmIncluded exclude_josh job then
    updAssoc (pmKey job) (fun old => pmAccAdd (old.getD {}) job) d
  else d

/-- The `pm_data` dict after the accumulation loop. -/
def pmTable (job_metrics : List JobMetrics) (exclude_josh : Bool) :
    List (String × PMAcc) :=
  job_metrics.foldl (pmFoldStep exclude_josh) []

/-- One output row of `aggregate_pm_metrics`. -/
structure PMSummary where
  project_manager : String
  total_jobs : Nat
  active_jobs : Nat
  jobs_with_budget : Nat
  jobs_valid_for_profit : Nat
  total_contract : ℚ
  total_budget : ℚ
  total_actual : ℚ
  total_billed : ℚ
  total_earned_revenue : ℚ
  total_backlog : ℚ
  total_profit : ℚ
  avg_margin : ℚ
  avg_completion : ℚ
deriving DecidableEq

/-- The per-PM finalisation step of `aggregate_pm_metrics` (the loop
constructing `results`): ratio fields divide by their own denominator
counts, never by `total_jobs`. -/
def pmFinalize (pm : String) (data : PMAcc) : PMSummary :=
  { project_manager := pm
    total_jobs := data.total_jobs
    active_jobs := data.active_jobs
    jobs_with_budget := data.jobs_with_budget
    jobs_valid_for_profit := data.jobs_valid_for_profit
    total_contract := round2 data.total_contract
    total_budget := round2 data.total_budget
    total_actual := round2 data.total_actual
    total_billed := round2 data.total_billed
    total_earned_revenue := round2 data.total_earned_revenue
    total_backlog := round2 data.total_backlog
    total_profit := round2 data.total_profit
    avg_margin :=
      if 0 < data.jobs_valid_for_profit then
        round2 (data.margin_sum / (data.jobs_valid_for_profit : ℚ))
      else 0
    avg_completion :=
      if 0 < data.jobs_with_budget then
        round2 (data.completion_sum / (data.jobs_with_budget : ℚ))
      else 0 }

/-- `metrics_etl.aggregate_pm_metrics(job_metrics, exclude_josh)`:
fold into the PM dict, finalise each row, sort by total contract
descending. -/
def aggregate_pm_metrics (job_metrics : List JobMetrics)
    (exclude_josh : Bool := true) : List PMSummary :=
  sortDescBy (fun x => x.total_contract)
    ((pmTable job_metrics exclude_josh).map (fun kv => pmFinalize kv.1 kv.2))

/-! ## AR-by-customer and AP-by-vendor aggregation -/

/-- Accumulator of `aggregate_ar_by_customer`. -/
structure ARCustAcc where
  invoice_count : Nat := 0
  total_due : ℚ := 0
  collectible : ℚ := 0
  retainage : ℚ := 0
  current : ℚ := 0
  days_31_60 : ℚ := 0
  days_61_90 : ℚ := 0
  days_90_plus : ℚ := 0
  weighted_days : ℚ := 0
deriving DecidableEq

/-- One invoice's contribution to its customer accumulator, including
the `customer_data[customer][inv['aging_bucket']] += collectible`
dynamic-key update. -/
def arCustAdd (a : ARCustAcc) (inv : ARMetric) : ARCustAcc :=
  { a with
    invoice_count := a.invoice_count + 1
    total_due := a.total_due + inv.total_due
    collectible := a.collectible + inv.collectible
    retainage := a.retainage + inv.retainage
    current := if inv.aging_bucket = "current" then a.current + inv.collectible else a.current
    days_31_60 :=
      if inv.aging_bucket = "days_31_60" then a.days_31_60 + inv.collectible else a.days_31_60
    days_61_90 :=
      if inv.aging_bucket = "days_61_90" then a.days_61_90 + inv.collectible else a.days_61_90
    days_90_plus :=
      if inv.aging_bucket = "days_90_plus" then a.days_90_plus + inv.collectible else a.days_90_plus
    weighted_days := a.weighted_days + inv.collectible * (inv.days_outstanding : ℚ) }

/-- One output row of `aggregate_ar_by_customer`. -/
structure ARCustomerSummary where
  customer_name : String
  invoice_count : Nat
  total_due : ℚ
  collectible : ℚ
  retainage : ℚ
  current : ℚ
  days_31_60 : ℚ
  days_61_90 : ℚ
  days_90_plus : ℚ
  avg_days_outstanding : ℚ
deriving DecidableEq

/-- `metrics_etl.aggregate_ar_by_customer(ar_metrics)`. -/
def aggregate_ar_by_customer (ar_metrics : List ARMetric) : List ARCustomerSummary :=
  let table := ar_metrics.foldl
    (fun d inv =>
      let customer := if inv.customer_name = "" then "Unknown Customer" else inv.customer_name
      updAssoc customer (fun old => arCustAdd (old.getD {}) inv) d) []
  sortDescBy (fun x => x.total_due)
    (table.map (fun kv : String × ARCustAcc =>
      ({ customer_name := kv.1,
         invoice_count := kv.2.invoice_count,
         total_due := round2 kv.2.total_due,
         collectible := round2 kv.2.collectible,
         retainage := round2 kv.2.retainage,
         current := round2 kv.2.current,
         days_31_60 := round2 kv.2.days_31_60,
         days_61_90 := round2 kv.2.days_61_90,
         days_90_plus := round2 kv.2.days_90_plus,
         avg_days_outstanding :=
           round1 (if 0 < kv.2.collectible then kv.2.weighted_days / kv.2.collectible else 0) }
        : ARCustomerSummary)))

/-- Accumulator of `aggregate_ap_by_vendor`. -/
structure APVendAcc where
  invoice_count : Nat := 0
  total_due : ℚ := 0
  retainage : ℚ := 0
  current : ℚ := 0
  days_31_60 : ℚ := 0
  days_61_90 : ℚ := 0
  days_90_plus : ℚ := 0
  weighted_days : ℚ := 0
deriving DecidableEq

/-- One invoice's contribution to its vendor accumulator. -/
def apVendAdd (a : APVendAcc) (inv : APMetric) : APVendAcc :=
  { a with
    invoice_count := a.invoice_count + 1
    total_due := a.total_due + inv.remaining_balance
    retainage := a.retainage + inv.retainage
    current :=
      if inv.aging_bucket = "current" then a.current + inv.amount_ex_retainage else a.current
    days_31_60 :=
      if inv.aging_bucket = "days_31_60" then a.days_31_60 + inv.amount_ex_retainage
      else a.days_31_60
    days_61_90 :=
      if inv.aging_bucket = "days_61_90" then a.days_61_90 + inv.amount_ex_retainage
      else a.days_61_90
    days_90_plus :=
      if inv.aging_bucket = "days_90_plus" then a.days_90_plus + inv.amount_ex_retainage
      else a.days_90_plus
    weighted_days := a.weighted_days + inv.amount_ex_retainage * (inv.days_outstanding : ℚ) }

/-- One output row of `aggregate_ap_by_vendor`. -/
structure APVendorSummary where
  vendor_name : String
  invoice_count : Nat
  total_due : ℚ
  retainage : ℚ
  current : ℚ
  days_31_60 : ℚ
  days_61_90 : ℚ
  days_90_plus : ℚ
  avg_days_outstanding : ℚ
deriving DecidableEq

/-- `metrics_etl.aggregate_ap_by_vendor(ap_metrics)`. -/
def aggregate_ap_by_vendor (ap_metrics : List APMetric) : List APVendorSummary :=
  let table := ap_metrics.foldl
    (fun d inv =>
      let vendor := if inv.vendor_name = "" then "Unknown Vendor" else inv.vendor_name
      updAssoc vendor (fun old => apVendAdd (old.getD {}) inv) d) []
  sortDescBy (fun x => x.total_due)
    (table.map (fun kv : String × APVendAcc =>
      let amount_ex_ret := kv.2.total_due - kv.2.retainage
      ({ vendor_name := kv.1,
         invoice_count := kv.2.invoice_count,
         total_due := round2 kv.2.total_due,
         retainage := round2 kv.2.retainage,
         current := round2 kv.2.current,
         days_31_60 := round2 kv.2.days_31_60,
         days_61_90 := round2 kv.2.days_61_90,
         days_90_plus := round2 kv.2.days_90_plus,
         avg_days_outstanding :=
           round1 (if 0 < amount_ex_ret then kv.2.weighted_days / amount_ex_ret else 0) }
        : APVendorSummary)))

/-! ## Jobs summary (`metrics_etl.get_jobs_summary`) -/

/-- The summary dict returned by `get_jobs_summary`. -/
structure JobsSummary where
  total_jobs : Nat
  jobs_with_budget : Nat
  jobs_without_budget : Nat
  jobs_valid_for_profit : Nat
  total_contract : ℚ
  total_budget : ℚ
  total_actual : ℚ
  total_billed : ℚ
  total_earned_revenue : ℚ
  total_backlog : ℚ
  total_profit : ℚ
  avg_margin : ℚ
  avg_completion : ℚ
deriving DecidableEq

/-- `metrics_etl.get_jobs_summary(job_metrics, active_only)`. -/
def get_jobs_summary (job_metrics : List JobMetrics) (active_only : Bool := false) :
    JobsSummary :=
  let jobs := if active_only then job_metrics.filter (fun j => j.job_status = "A") else job_metrics
  let jobs_with_budget := jobs.filter (fun j => j.has_budget)
  let jobs_valid_for_profit := jobs.filter (fun j => j.valid_for_profit)
  { total_jobs := jobs.length
    jobs_with_budget := jobs_with_budget.length
    jobs_without_budget := jobs.length - jobs_with_budget.length
    jobs_valid_for_profit := jobs_valid_for_profit.length
    total_contract := round2 ((jobs.map (fun j => j.contract)).sum)
    total_budget := round2 ((jobs.map (fun j => j.budget_cost)).sum)
    total_actual := round2 ((jobs.map (fun j => j.actual_cost)).sum)
    total_billed := round2 ((jobs.map (fun j => j.billed)).sum)
    total_earned_revenue := round2 ((jobs_with_budget.map (fun j => j.earned_revenue)).sum)
    total_backlog := round2 ((jobs_with_budget.map (fun j => j.backlog)).sum)
    total_profit := round2 ((jobs_valid_for_profit.map (fun j => j.profit)).sum)
    avg_margin :=
      round2 (if jobs_valid_for_profit.length ≠ 0 then
        ((jobs_valid_for_profit.map (fun j => j.margin)).sum) / (jobs_valid_for_profit.length : ℚ)
      else 0)
    avg_completion :=
      round2 (if jobs_with_budget.length ≠ 0 then
        ((jobs_with_budget.map (fun j => j.percent_complete)).sum) / (jobs_with_budget.length : ℚ)
      else 0) }

/-! ## ETL runners and the metrics cache (`metrics_etl.run_*_etl`, `MetricsCache`) -/

/-- One row of the `job_actuals` extract. `job_no` models the resolved
`str(a.get('Job_No') or a.get('job_no') or '')` key and `value` the raw
operand of `float(a.get('Value') or a.get('actual_cost') or 0)`. -/
structure EtlActualRow where
  job_no : String := ""
  value : RawVal := .none
deriving DecidableEq

/-- One row of the `job_billed_revenue` extract (keys resolved as above). -/
structure EtlBilledRow where
  job_no : String := ""
  billed : RawVal := .none
deriving DecidableEq

/-- The decoded `financials_jobs.json` payload. -/
structure JobsRawData where
  job_budgets : List JobRec := []
  job_actuals : List EtlActualRow := []
  job_billed_revenue : List EtlBilledRow := []
deriving DecidableEq

/-- `metrics_etl.run_jobs_etl()`, parameterised by the outcome of the
`load_json_file` call (which raises on an unavailable extract). -/
def run_jobs_etl (load : Except String JobsRawData) : Except String (List JobMetrics) := do
  let jobs_data ← load
  let actual_by_job ← jobs_data.job_actuals.foldlM
    (fun d a => do
      let v ← pyFloat (pyOrZero a.value)
      pure (updAssoc a.job_no (fun old => old.getD 0 + v) d))
    ([] : List (String × ℚ))
  let billed_by_job ← jobs_data.job_billed_revenue.foldlM
    (fun d b => do
      let v ← pyFloat (pyOrZero b.billed)
      pure (updAssoc b.job_no (fun _ => v) d))
    ([] : List (String × ℚ))
  jobs_data.job_budgets.mapM (fun job =>
    calculate_job_metrics job
      ((lookupAssoc actual_by_job job.job_no).getD 0)
      ((lookupAssoc billed_by_job job.job_no).getD 0))

/-- `metrics_etl.run_ar_etl()`, parameterised by the load outcome. -/
def run_ar_etl (load : Except String (List RawARInvoice)) :
    Except String (List ARMetric) := do
  let invoices ← load
  invoices.foldlM
    (fun acc inv => do
      match ← calculate_ar_invoice_metrics inv with
      | some m => pure (acc ++ [m])
      | none => pure acc)
    ([] : List ARMetric)

/-- `metrics_etl.run_ap_etl()`, parameterised by the load outcome. -/
def run_ap_etl (load : Except String (List RawAPInvoice)) :
    Except String (List APMetric) := do
  let invoices ← load
  invoices.foldlM
    (fun acc inv => do
      match ← calculate_ap_invoice_metrics inv with
      | some m => pure (acc ++ [m])
      | none => pure acc)
    ([] : List APMetric)

/-- The mutable fields of the `MetricsCache` singleton. -/
structure MetricsCacheState where
  jobs_metrics : List JobMetrics := []
  ar_metrics : List ARMetric := []
  ap_metrics : List APMetric := []
  pm_metrics : List PMSummary := []
  ar_by_customer : List ARCustomerSummary := []
  ap_by_vendor : List APVendorSummary := []
  last_refresh : Option Nat := none
deriving DecidableEq

/-- The outcomes of the three `load_json_file` calls a refresh performs,
in the order the source performs them. -/
structure LoadOutcomes where
  jobsLoad : Except String JobsRawData
  arLoad : Except String (List RawARInvoice)
  apLoad : Except String (List RawAPInvoice)

/-- `MetricsCache.refresh(self)`: the field assignments happen one at a
time, in source order; an exception raised by a later step leaves the
assignments already performed in place and propagates (modelled by the
returned `Except`).  `now` models `datetime.now()`. -/
def MetricsCache.refresh (st : MetricsCacheState) (loads : LoadOutcomes) (now : Nat) :
    MetricsCacheState × Except String Unit :=
  match run_jobs_etl loads.jobsLoad with
  | .error e => (st, .error e)
  | .ok jm =>
    let st1 := { st with jobs_metrics := jm }
    match run_ar_etl loads.arLoad with
    | .error e => (st1, .error e)
    | .ok arm =>
      let st2 := { st1 with ar_metrics := arm }
      match run_ap_etl loads.apLoad with
      | .error e => (st2, .error e)
      | .ok apm =>
        let st3 := { st2 with ap_metrics := apm }
        let st4 := { st3 with pm_metrics := aggregate_pm_metrics st3.jobs_metrics true }
        let st5 := { st4 with ar_by_customer := aggregate_ar_by_customer st4.ar_metrics }
        let st6 := { st5 with ap_by_vendor := aggregate_ap_by_vendor st5.ap_metrics }
        ({ st6 with last_refresh := some now }, .ok ())

/-- `MetricsCache.filter_jobs` (the `exclude_josh` pre-filter only takes
effect before any of the optional criteria). -/
def MetricsCache.filter_jobs (jobs_metrics : List JobMetrics)
    (pm status customer : Option String) (has_budget : Option Bool)
    (exclude_josh : Bool := true) : List JobMetrics :=
  let results := jobs_metrics
  let results := if exclude_josh then
      results.filter (fun j => !(strContains (strLower j.project_manager) EXCLUDED_PM))
    else results
  let results := match pm with
    | some p => results.filter (fun j => strContains (strLower j.project_manager) (strLower p))
    | none => results
  let results := match status with
    | some s => results.filter (fun j => j.job_status = s)
    | none => results
  let results := match customer with
    | some c => results.filter (fun j => strContains (strLower j.customer_name) (strLower c))
    | none => results
  match has_budget with
  | some hb => results.filter (fun j => j.has_budget = hb)
  | none => results

/-! ## Query-plan executor (`server.execute_nlq_query`) -/

/-- A JSON-like value in a result envelope. -/
inductive RVal where
  | num (q : ℚ)
  | str (s : String)
  | bool (b : Bool)
  | list (l : List RVal)
  | obj (o : List (String × RVal))

/-- A result envelope: the Python result dict in insertion order. -/
abbrev NLQResult := List (String × RVal)

/-- Lookup of a key in a result envelope. -/
def dictGet : NLQResult → String → Option RVal
  | [], _ => none
  | (k, v) :: rest, key => if k = key then some v else dictGet rest key

/-- The `limit` entry of a query plan: Python distinguishes a missing
key (default `50`), JSON `null` (no truncation when slicing) and an
integer value. -/
inductive LimitVal where
  | absent
  | null
  | val (n : Nat)
deriving DecidableEq

/-- `query_plan.get('limit', 50)` as a Python-level value
(`none` models `None`). -/
def LimitVal.get : LimitVal → Option Nat
  | .absent => some 50
  | .null => none
  | .val n => some n

/-- Python slice `l[:limit]` where `limit` is `None` or an integer. -/
def pySlice (limit : Option Nat) (l : List α) : List α :=
  match limit with
  | none => l
  | some n => l.take n

/-- Python `limit or d` on an optional integer. -/
def orDefault (limit : Option Nat) (d : Nat) : Nat :=
  match limit with
  | none => d
  | some 0 => d
  | some n => n

/-- The filter entries a query plan may carry. `none` models a filter
that is absent or falsy (the source guards every filter with Python
truthiness, so an absent and an empty/zero filter behave alike);
numeric filter values are assumed well-typed by the planning layer. -/
structure Filters where
  job_no : Option String := none
  pm : Option String := none
  status : Option String := none
  customer : Option String := none
  vendor : Option String := none
  min_days : Option ℚ := none
  max_days : Option ℚ := none
  year : Option ℤ := none
  account_range : Option (ℤ × ℤ) := none
  cost_code : Option String := none
  date_range : Option String := none

/-- A structured query plan, with the field defaults
`execute_nlq_query` applies on `query_plan.get(...)`. -/
structure Plan where
  target_data : String := ""
  filters : Filters := {}
  aggregation : String := "list"
  fields : List String := []
  sort_by : Option String := none
  sort_order : String := "desc"
  limit : LimitVal := .absent

/-- `if filters.get(k): if p(filters[k]): continue` — whether an
optional filter is present and rejects the row. -/
def optRejects (o : Option α) (p : α → Bool) : Bool :=
  match o with
  | none => false
  | some a => p a

/-- The `pm_matches` helper defined inside `execute_nlq_query`
(substring or prefix match, case-insensitive). -/
def pm_matches (pm_name filter_pm : String) : Bool :=
  strContains (strLower pm_name) (strLower filter_pm) ||
    strStartsWith (strLower pm_name) (strLower filter_pm)

/-- The per-job dict (`job_data`) the jobs branch builds from a cache
metrics row after filtering. -/
structure JobData where
  job_no : String
  description : String
  pm : String
  customer : String
  status : String
  contract : ℚ
  budget_cost : ℚ
  actual_cost : ℚ
  billed : ℚ
  has_budget : Bool
  percent_complete : ℚ
  earned_revenue : ℚ
  backlog : ℚ
  profit : ℚ
  margin : ℚ
  over_under_billing : ℚ
  valid_for_profit : Bool
  profit_basis : String
deriving DecidableEq

/-- Field mapping from a cache metrics row into `job_data`. -/
def JobData.ofMetrics (job : JobMetrics) : JobData :=
  { job_no := job.job_no
    description := job.job_description
    pm := job.project_manager
    customer := job.customer_name
    status := job.job_status
    contract := job.contract
    budget_cost := job.budget_cost
    actual_cost := job.actual_cost
    billed := job.billed
    has_budget := job.has_budget
    percent_complete := job.percent_complete
    earned_revenue := job.earned_revenue
    backlog := job.backlog
    profit := job.profit
    margin := job.margin
    over_under_billing := job.over_under_billing
    valid_for_profit := job.valid_for_profit
    profit_basis := job.profit_basis }

/-- `job_data` as a result-envelope object, in dict insertion order. -/
def JobData.toObj (j : JobData) : RVal :=
  .obj [("job_no", .str j.job_no), ("description", .str j.description), ("pm", .str j.pm),
    ("customer", .str j.customer), ("status", .str j.status), ("contract", .num j.contract),
    ("budget_cost", .num j.budget_cost), ("actual_cost", .num j.actual_cost),
    ("billed", .num j.billed), ("has_budget", .bool j.has_budget),
    ("percent_complete", .num j.percent_complete), ("earned_revenue", .num j.earned_revenue),
    ("backlog", .num j.backlog), ("profit", .num j.profit), ("margin", .num j.margin),
    ("over_under_billing", .num j.over_under_billing),
    ("valid_for_profit", .bool j.valid_for_profit), ("profit_basis", .str j.profit_basis)]

/-- Dynamic numeric access `j.get(field, 0)` on a `job_data` dict.
String-valued fields are mapped to `0`: in Python, summing or
comparing them raises a `TypeError` that the executor's outer handler
turns into an error envelope, a path no claim exercises. -/
def JobData.getNum (j : JobData) (field : String) : ℚ :=
  if field = "contract" then j.contract
  else if field = "budget_cost" then j.budget_cost
  else if field = "actual_cost" then j.actual_cost
  else if field = "billed" then j.billed
  else if field = "percent_complete" then j.percent_complete
  else if field = "earned_revenue" then j.earned_revenue
  else if field = "backlog" then j.backlog
  else if field = "profit" then j.profit
  else if field = "margin" then j.margin
  else if field = "over_under_billing" then j.over_under_billing
  else 0

/-- The `field_aliases` map of the jobs branch. -/
def field_aliases (f : String) : String :=
  if f = "revised_contract" then "contract"
  else if f = "revised_cost" then "budget_cost"
  else if f = "project_manager_name" then "pm"
  else if f = "job_description" then "description"
  else if f = "customer_name" then "customer"
  else if f = "job_status" then "status"
  else f

/-- The filtering loop of the jobs branch: the hard-coded Josh Angelo
exclusion runs before any plan filter, then the optional filters. -/
def jobsFiltered (filters : Filters) (all_jobs : List JobMetrics) : List JobData :=
  all_jobs.filterMap (fun job =>
    let pm := job.project_manager
    if strContains (strLower pm) "josh angelo" then none
    else
      let job_no := job.job_no
      if optRejects filters.job_no (fun v => decide (v ≠ job_no)) then none
      else if optRejects filters.pm (fun v => !pm_matches pm v) then none
      else if optRejects filters.status (fun v => decide (job.job_status ≠ v)) then none
      else if optRejects filters.customer
        (fun v => !strContains (strLower job.customer_name) (strLower v)) then none
      else some (JobData.ofMetrics job))

/-- The accumulator dict of the jobs `by_pm` aggregation, as initialised
and incremented by the grouping loop. -/
structure JobsPMGroup where
  pm : String
  job_count : Nat := 0
  active_jobs : Nat := 0
  jobs_with_budget : Nat := 0
  contract : ℚ := 0
  budget_cost : ℚ := 0
  actual_cost : ℚ := 0
  billed : ℚ := 0
  earned_revenue : ℚ := 0
  backlog : ℚ := 0
deriving DecidableEq

/-- One job's contribution to its `by_pm` group. -/
def jobsPMGroupAdd (g : JobsPMGroup) (j : JobData) : JobsPMGroup :=
  { g with
    job_count := g.job_count + 1
    active_jobs := if j.status = "A" then g.active_jobs + 1 else g.active_jobs
    jobs_with_budget := if j.has_budget then g.jobs_with_budget + 1 else g.jobs_with_budget
    contract := g.contract + j.contract
    budget_cost := g.budget_cost + j.budget_cost
    actual_cost := g.actual_cost + j.actual_cost
    billed := g.billed + j.billed
    earned_revenue := g.earned_revenue + j.earned_revenue
    backlog := g.backlog + j.backlog }

/-- A `by_pm` group after the second loop added `margin`,
`over_under_billing` and `avg_completion`. -/
structure JobsPMRow where
  pm : String
  job_count : Nat
  active_jobs : Nat
  jobs_with_budget : Nat
  contract : ℚ
  budget_cost : ℚ
  actual_cost : ℚ
  billed : ℚ
  earned_revenue : ℚ
  backlog : ℚ
  margin : ℚ
  over_under_billing : ℚ
  avg_completion : ℚ
deriving DecidableEq

/-- The mutation loop over `by_pm.values()`: the flat
`(contract − budget_cost) / contract` margin and the cost-weighted
completion. -/
def jobsPMFinalize (g : JobsPMGroup) : JobsPMRow :=
  { pm := g.pm
    job_count := g.job_count
    active_jobs := g.active_jobs
    jobs_with_budget := g.jobs_with_budget
    contract := g.contract
    budget_cost := g.budget_cost
    actual_cost := g.actual_cost
    billed := g.billed
    earned_revenue := g.earned_revenue
    backlog := g.backlog
    margin :=
      if 0 < g.contract then round1 ((g.contract - g.budget_cost) / g.contract * 100) else 0
    over_under_billing := round2 (g.billed - g.earned_revenue)
    avg_completion :=
      if 0 < g.budget_cost then round1 (g.actual_cost / g.budget_cost * 100) else 0 }

/-- Dynamic numeric access `x.get(sort_field, 0)` on a `by_pm` row. -/
def JobsPMRow.getNum (r : JobsPMRow) (field : String) : ℚ :=
  if field = "job_count" then (r.job_count : ℚ)
  else if field = "active_jobs" then (r.active_jobs : ℚ)
  else if field = "jobs_with_budget" then (r.jobs_with_budget : ℚ)
  else if field = "contract" then r.contract
  else if field = "budget_cost" then r.budget_cost
  else if field = "actual_cost" then r.actual_cost
  else if field = "billed" then r.billed
  else if field = "earned_revenue" then r.earned_revenue
  else if field = "backlog" then r.backlog
  else if field = "margin" then r.margin
  else if field = "over_under_billing" then r.over_under_billing
  else if field = "avg_completion" then r.avg_completion
  else 0

/-- A `by_pm` row as a result object, in dict insertion order. -/
def JobsPMRow.toObj (r : JobsPMRow) : RVal :=
  .obj [("pm", .str r.pm), ("job_count", .num (r.job_count : ℚ)),
    ("active_jobs", .num (r.active_jobs : ℚ)),
    ("jobs_with_budget", .num (r.jobs_with_budget : ℚ)), ("contract", .num r.contract),
    ("budget_cost", .num r.budget_cost), ("actual_cost", .num r.actual_cost),
    ("billed", .num r.billed), ("earned_revenue", .num r.earned_revenue),
    ("backlog", .num r.backlog), ("margin", .num r.margin),
    ("over_under_billing", .num r.over_under_billing),
    ("avg_completion", .num r.avg_completion)]

/-- A jobs `by_customer` group. -/
structure JobsCustGroup where
  customer : String
  job_count : Nat := 0
  contract : ℚ := 0
deriving DecidableEq

/-- A jobs `by_customer` group as a result object. -/
def JobsCustGroup.toObj (g : JobsCustGroup) : RVal :=
  .obj [("customer", .str g.customer), ("job_count", .num (g.job_count : ℚ)),
    ("contract", .num g.contract)]

/-- The jobs branch of `execute_nlq_query` (target `'jobs'`). -/
def execJobs (filters : Filters) (aggregation : String) (fields : List String)
    (sort_by : Option String) (limit : Option Nat) (all_jobs : List JobMetrics) : NLQResult :=
  let filtered := jobsFiltered filters all_jobs
  if aggregation = "count" then
    [("count", .num (filtered.length : ℚ))]
  else if aggregation = "sum" then
    let field := field_aliases (fields.headD "contract")
    let jobs_with_budget := filtered.filter (fun j => j.has_budget)
    let jobs_without_budget := filtered.filter (fun j => !j.has_budget)
    if field = "backlog" ∨ field = "earned_revenue" ∨ field = "percent_complete" then
      let total := ((jobs_with_budget.map (fun j => j.getNum field)).sum)
      [("total", .num (round2 total)), ("field", .str field),
       ("jobs_counted", .num (jobs_with_budget.length : ℚ)),
       ("jobs_with_budget", .num (jobs_with_budget.length : ℚ)),
       ("jobs_without_budget", .num (jobs_without_budget.length : ℚ)),
       ("note", .str ("Only jobs with budgets included. " ++
         toString jobs_without_budget.length ++ " jobs have no budget set."))]
    else
      [("total", .num ((filtered.map (fun j => j.getNum field)).sum)), ("field", .str field),
       ("count", .num (filtered.length : ℚ))]
  else if aggregation = "average" then
    let field := field_aliases (fields.headD "margin")
    let jobs_with_budget := filtered.filter (fun j => j.has_budget)
    let jobs_without_budget := filtered.filter (fun j => !j.has_budget)
    if field = "percent_complete" ∨ field = "margin" ∨ field = "earned_revenue" ∨
        field = "backlog" then
      let values := jobs_with_budget.map (fun j => j.getNum field)
      let avg := if values.length ≠ 0 then values.sum / (values.length : ℚ) else 0
      [("average", .num (round1 avg)), ("field", .str field),
       ("jobs_counted", .num (jobs_with_budget.length : ℚ)),
       ("jobs_with_budget", .num (jobs_with_budget.length : ℚ)),
       ("jobs_without_budget", .num (jobs_without_budget.length : ℚ)),
       ("note", .str ("Average is calculated only for jobs with budgets. " ++
         toString jobs_without_budget.length ++ " jobs excluded (no budget)."))]
    else
      let values := filtered.map (fun j => j.getNum field)
      [("average", .num (round1 (if values.length ≠ 0 then values.sum / (values.length : ℚ) else 0))),
       ("field", .str field), ("count", .num (filtered.length : ℚ))]
  else if aggregation = "top" then
    let sort_field := field_aliases (sort_by.getD "contract")
    let sorted := sortDescBy (fun x => x.getNum sort_field) filtered
    let valid_for_profit := sorted.filter (fun j => j.valid_for_profit)
    [("items", .list ((pySlice limit sorted).map JobData.toObj)), ("sort_by", .str sort_field),
     ("total_count", .num (sorted.length : ℚ)),
     ("total_contract", .num ((sorted.map (fun j => j.contract)).sum)),
     ("total_profit", .num (round2 ((valid_for_profit.map (fun j => j.profit)).sum))),
     ("avg_margin", .num (if valid_for_profit.length ≠ 0 then
       round2 (((valid_for_profit.map (fun j => j.margin)).sum) / (valid_for_profit.length : ℚ))
       else 0)),
     ("note", .str ("Showing top " ++ toString (min (orDefault limit 50) sorted.length) ++
       " of " ++ toString sorted.length ++ " jobs. Totals from ALL " ++
       toString sorted.length ++ " jobs."))]
  else if aggregation = "closest_to_completion" then
    let with_budgets := filtered.filter (fun j =>
      decide (0 < j.budget_cost) && decide (0 < j.percent_complete) &&
        decide (j.percent_complete < 100))
    let sorted := sortDescBy (fun x => x.percent_complete) with_budgets
    [("items", .list ((sorted.take (orDefault limit 10)).map JobData.toObj)),
     ("total_with_budgets", .num (sorted.length : ℚ))]
  else if aggregation = "by_pm" then
    let by_pm := filtered.foldl
      (fun d j => updAssoc j.pm (fun old => jobsPMGroupAdd (old.getD { pm := j.pm }) j) d) []
    let rows := by_pm.map (fun kv => jobsPMFinalize kv.2)
    let sort_field := field_aliases (sort_by.getD "contract")
    let sorted := sortDescBy (fun x => x.getNum sort_field) rows
    [("items", .list ((sorted.take (orDefault limit 20)).map JobsPMRow.toObj)),
     ("total_pms", .num (by_pm.length : ℚ))]
  else if aggregation = "by_customer" then
    let by_cust := filtered.foldl
      (fun d j => updAssoc j.customer (fun old =>
        let g := old.getD { customer := j.customer }
        { g with job_count := g.job_count + 1, contract := g.contract + j.contract }) d) []
    let sorted := sortDescBy (fun x => x.contract) (by_cust.map (fun kv => kv.2))
    [("items", .list ((sorted.take (orDefault limit 20)).map JobsCustGroup.toObj)),
     ("total_customers", .num (by_cust.length : ℚ))]
  else if aggregation = "bottom" then
    let sort_field := field_aliases (sort_by.getD "margin")
    let sorted := sortAscBy (fun x => x.getNum sort_field) filtered
    let valid_for_profit := sorted.filter (fun j => j.valid_for_profit)
    [("items", .list ((pySlice limit sorted).map JobData.toObj)), ("sort_by", .str sort_field),
     ("total_count", .num (sorted.length : ℚ)),
     ("total_contract", .num ((sorted.map (fun j => j.contract)).sum)),
     ("total_profit", .num (round2 ((valid_for_profit.map (fun j => j.profit)).sum))),
     ("avg_margin", .num (if valid_for_profit.length ≠ 0 then
       round2 (((valid_for_profit.map (fun j => j.margin)).sum) / (valid_for_profit.length : ℚ))
       else 0)),
     ("note", .str ("Showing bottom " ++ toString (min (orDefault limit 50) sorted.length) ++
       " of " ++ toString sorted.length ++ " jobs. Totals from ALL " ++
       toString sorted.length ++ " jobs."))]
  else
    let jobs_with_budget := filtered.filter (fun j => j.has_budget)
    let jobs_without_budget := filtered.filter (fun j => !j.has_budget)
    let sort_field := field_aliases (sort_by.getD "contract")
    let sorted := sortDescBy (fun x => x.getNum sort_field) filtered
    let valid_for_profit := sorted.filter (fun j => j.valid_for_profit)
    let total_profit := (valid_for_profit.map (fun j => j.profit)).sum
    let avg_margin := if valid_for_profit.length ≠ 0 then
        ((valid_for_profit.map (fun j => j.margin)).sum) / (valid_for_profit.length : ℚ)
      else 0
    [("items", .list ((sorted.take (orDefault limit 20)).map JobData.toObj)),
     ("total_count", .num (sorted.length : ℚ)),
     ("jobs_with_budget", .num (jobs_with_budget.length : ℚ)),
     ("jobs_without_budget", .num (jobs_without_budget.length : ℚ)),
     ("jobs_valid_for_profit", .num (valid_for_profit.length : ℚ)),
     ("total_actual_cost", .num ((sorted.map (fun j => j.actual_cost)).sum)),
     ("total_contract", .num ((sorted.map (fun j => j.contract)).sum)),
     ("total_billed", .num ((sorted.map (fun j => j.billed)).sum)),
     ("total_profit", .num (round2 total_profit)),
     ("avg_margin", .num (round2 avg_margin)),
     ("avg_completion_with_budget", .num (if jobs_with_budget.length ≠ 0 then
       round1 (((jobs_with_budget.map (fun j => j.percent_complete)).sum) /
         (jobs_with_budget.length : ℚ)) else 0)),
     ("note", .str ("Showing top " ++ toString (min (orDefault limit 20) sorted.length) ++
       " of " ++ toString sorted.length ++ " jobs. Totals calculated from ALL " ++
       toString sorted.length ++ " matching jobs."))]

/-- The per-invoice dict the AR branch builds after filtering. -/
structure ARItem where
  customer : String
  invoice_no : String
  calc_due : ℚ
  collectible : ℚ
  retainage : ℚ
  days_outstanding : ℤ
  job_no : String
  pm : String
deriving DecidableEq

/-- An AR item as a result object, in dict insertion order. -/
def ARItem.toObj (i : ARItem) : RVal :=
  .obj [("customer", .str i.customer), ("invoice_no", .str i.invoice_no),
    ("calc_due", .num i.calc_due), ("collectible", .num i.collectible),
    ("retainage", .num i.retainage), ("days_outstanding", .num (i.days_outstanding : ℚ)),
    ("job_no", .str i.job_no), ("pm", .str i.pm)]

/-- The filtering loop of the AR branch.  The Josh Angelo exclusion
only applies when a `pm` filter is present (the source comment makes
the asymmetry with the jobs branch explicit). -/
def arFiltered (filters : Filters) (all_ar : List ARMetric) : List ARItem :=
  all_ar.filterMap (fun inv =>
    let pm := inv.project_manager
    if optRejects filters.pm (fun _ => strContains (strLower pm) "josh angelo") then none
    else if optRejects filters.pm (fun v => !pm_matches pm v) then none
    else if optRejects filters.customer
      (fun v => !strContains (strLower inv.customer_name) (strLower v)) then none
    else if optRejects filters.min_days (fun v => decide ((inv.days_outstanding : ℚ) < v)) then
      none
    else if optRejects filters.max_days (fun v => decide (v < (inv.days_outstanding : ℚ))) then
      none
    else some
      { customer := inv.customer_name
        invoice_no := inv.invoice_no
        calc_due := inv.calculated_amount_due
        collectible := inv.collectible
        retainage := inv.retainage
        days_outstanding := inv.days_outstanding
        job_no := inv.job_no
        pm := pm })

/-- An AR `by_pm` group. -/
structure ARPMGroup where
  pm : String
  collectible : ℚ := 0
  retainage : ℚ := 0
  invoice_count : Nat := 0
deriving DecidableEq

/-- An AR `by_pm` group as a result object. -/
def ARPMGroup.toObj (g : ARPMGroup) : RVal :=
  .obj [("pm", .str g.pm), ("collectible", .num g.collectible),
    ("retainage", .num g.retainage), ("invoice_count", .num (g.invoice_count : ℚ))]

/-- An AR `by_job` group (`customer`/`pm` are fixed by the first
invoice seen for the job). -/
structure ARJobGroup where
  job_no : String
  collectible : ℚ := 0
  retainage : ℚ := 0
  invoice_count : Nat := 0
  customer : String
  pm : String
deriving DecidableEq

/-- An AR `by_job` group as a result object. -/
def ARJobGroup.toObj (g : ARJobGroup) : RVal :=
  .obj [("job_no", .str g.job_no), ("collectible", .num g.collectible),
    ("retainage", .num g.retainage), ("invoice_count", .num (g.invoice_count : ℚ)),
    ("customer", .str g.customer), ("pm", .str g.pm)]

/-- The AR branch of `execute_nlq_query` (target `'ar'`). -/
def execAR (filters : Filters) (aggregation : String) (limit : Option Nat)
    (all_ar : List ARMetric) : NLQResult :=
  let filtered := arFiltered filters all_ar
  if aggregation = "sum" then
    let total_collectible := (filtered.map (fun i => i.collectible)).sum
    let total_retainage := (filtered.map (fun i => i.retainage)).sum
    let total_due := total_collectible + total_retainage
    let weighted_days := (filtered.map (fun i => i.collectible * (i.days_outstanding : ℚ))).sum
    let avg_days_outstanding :=
      if 0 < total_collectible then weighted_days / total_collectible else 0
    let by_cust := filtered.foldl
      (fun d inv => updAssoc inv.customer (fun old => old.getD 0 + inv.collectible) d) []
    let sorted_custs := (sortDescBy (fun kv => kv.2) by_cust).take 5
    let top5_total := (sorted_custs.map (fun kv => kv.2)).sum
    let top5 :=
      if 0 < total_collectible then top5_total / total_collectible * 100 else 0
    [("total_due", .num total_due), ("collectible", .num total_collectible),
     ("retainage", .num total_retainage), ("invoice_count", .num (filtered.length : ℚ)),
     ("avg_days_outstanding", .num (round1 avg_days_outstanding)),
     ("top5_concentration_pct", .num (round1 top5)),
     ("top5_customers", .list (sorted_custs.map (fun kv =>
       .obj [("customer", .str kv.1), ("amount", .num kv.2)])))]
  else if aggregation = "by_customer" then
    let by_cust := filtered.foldl
      (fun d inv => updAssoc inv.customer (fun old => old.getD 0 + inv.collectible) d) []
    let sorted_custs := sortDescBy (fun kv => kv.2) by_cust
    let total_collectible := (sorted_custs.map (fun kv => kv.2)).sum
    [("items", .list ((pySlice limit sorted_custs).map (fun kv =>
       .obj [("customer", .str kv.1), ("amount", .num kv.2)]))),
     ("total_customers", .num (sorted_custs.length : ℚ)),
     ("total_collectible", .num (round2 total_collectible)),
     ("note", .str ("Showing top " ++ toString (min (orDefault limit 50) sorted_custs.length) ++
       " of " ++ toString sorted_custs.length ++ " customers. Total from ALL customers."))]
  else if aggregation = "aging" then
    let current := (filtered.filter (fun i => decide (i.days_outstanding ≤ 30))).map
      (fun i => i.collectible)
    let d31 := (filtered.filter (fun i =>
      decide (30 < i.days_outstanding) && decide (i.days_outstanding ≤ 60))).map
      (fun i => i.collectible)
    let d61 := (filtered.filter (fun i =>
      decide (60 < i.days_outstanding) && decide (i.days_outstanding ≤ 90))).map
      (fun i => i.collectible)
    let d90 := (filtered.filter (fun i => decide (90 < i.days_outstanding))).map
      (fun i => i.collectible)
    let retainage := (filtered.map (fun i => i.retainage)).sum
    let total_collectible := current.sum + d31.sum + d61.sum + d90.sum
    [("current", .num current.sum), ("days_31_60", .num d31.sum), ("days_61_90", .num d61.sum),
     ("days_90_plus", .num d90.sum), ("retainage", .num retainage),
     ("total_collectible", .num total_collectible),
     ("total_due", .num (total_collectible + retainage))]
  else if aggregation = "by_pm" then
    let grouped := (filtered.filter (fun inv =>
        !strContains (strLower inv.pm) "josh angelo")).foldl
      (fun d inv => updAssoc inv.pm (fun old =>
        let g := old.getD { pm := inv.pm }
        { g with collectible := g.collectible + inv.collectible,
                 retainage := g.retainage + inv.retainage,
                 invoice_count := g.invoice_count + 1 }) d) []
    let sorted := sortDescBy (fun g => g.collectible) (grouped.map (fun kv => kv.2))
    [("items", .list ((sorted.take (orDefault limit 20)).map ARPMGroup.toObj)),
     ("total_pms", .num (grouped.length : ℚ))]
  else if aggregation = "by_job" then
    let grouped := filtered.foldl
      (fun d inv => updAssoc inv.job_no (fun old =>
        let g := old.getD { job_no := inv.job_no, customer := inv.customer, pm := inv.pm }
        { g with collectible := g.collectible + inv.collectible,
                 retainage := g.retainage + inv.retainage,
                 invoice_count := g.invoice_count + 1 }) d) []
    let sorted_jobs :=
      (sortDescBy (fun g => g.collectible) (grouped.map (fun kv => kv.2))).take
        (orDefault limit 10)
    let total_collectible := (filtered.map (fun i => i.collectible)).sum
    [("total_ar", .num total_collectible),
     ("items", .list (sorted_jobs.map ARJobGroup.toObj))]
  else
    let total_collectible := (filtered.map (fun i => i.collectible)).sum
    let total_retainage := (filtered.map (fun i => i.retainage)).sum
    let total_due := (filtered.map (fun i => i.calc_due)).sum
    let weighted_days := (filtered.map (fun i => i.collectible * (i.days_outstanding : ℚ))).sum
    let avg_days := if 0 < total_collectible then weighted_days / total_collectible else 0
    let sorted := sortDescBy (fun x => x.collectible) filtered
    [("items", .list ((pySlice limit sorted).map ARItem.toObj)),
     ("total_count", .num (sorted.length : ℚ)),
     ("total_collectible", .num (round2 total_collectible)),
     ("total_retainage", .num (round2 total_retainage)),
     ("total_due", .num (round2 total_due)),
     ("avg_days_outstanding", .num (round1 avg_days)),
     ("note", .str ("Showing top " ++ toString (min (orDefault limit 50) sorted.length) ++
       " of " ++ toString sorted.length ++ " invoices. Totals calculated from ALL " ++
       toString sorted.length ++ " invoices."))]

/-- The per-invoice dict the AP branch builds after filtering.  The
`description` key is set to `''` and the dict has no `retainage` key,
so the default list branch's `i.get('retainage', 0)` is always `0`. -/
structure APItem where
  vendor : String
  invoice_no : String
  amount : ℚ
  days_outstanding : ℤ
  job_no : String
  description : String
deriving DecidableEq

/-- An AP item as a result object. -/
def APItem.toObj (i : APItem) : RVal :=
  .obj [("vendor", .str i.vendor), ("invoice_no", .str i.invoice_no),
    ("amount", .num i.amount), ("days_outstanding", .num (i.days_outstanding : ℚ)),
    ("job_no", .str i.job_no), ("description", .str i.description)]

/-- The filtering loop of the AP branch. -/
def apFiltered (filters : Filters) (all_ap : List APMetric) : List APItem :=
  all_ap.filterMap (fun inv =>
    let vendor_name := inv.vendor_name
    if optRejects filters.vendor
      (fun v => !strContains (strLower vendor_name) (strLower v)) then none
    else if optRejects filters.min_days (fun v => decide ((inv.days_outstanding : ℚ) < v)) then
      none
    else some
      { vendor := vendor_name
        invoice_no := inv.invoice_no
        amount := inv.remaining_balance
        days_outstanding := inv.days_outstanding
        job_no := inv.job_no
        description := "" })

/-- The AP branch of `execute_nlq_query` (target `'ap'`). -/
def execAP (filters : Filters) (aggregation : String) (limit : Option Nat)
    (all_ap : List APMetric) : NLQResult :=
  let filtered := apFiltered filters all_ap
  if aggregation = "sum" then
    let total_ap := (filtered.map (fun i => i.amount)).sum
    let weighted_days := (filtered.map (fun i => i.amount * (i.days_outstanding : ℚ))).sum
    let avg_days_outstanding := if 0 < total_ap then weighted_days / total_ap else 0
    let by_vendor := filtered.foldl
      (fun d inv => updAssoc inv.vendor (fun old => old.getD 0 + inv.amount) d) []
    let sorted_vendors := (sortDescBy (fun kv => kv.2) by_vendor).take 5
    let top5_total := (sorted_vendors.map (fun kv => kv.2)).sum
    let top5 := if 0 < total_ap then top5_total / total_ap * 100 else 0
    [("total", .num total_ap), ("invoice_count", .num (filtered.length : ℚ)),
     ("avg_days_outstanding", .num (round1 avg_days_outstanding)),
     ("top5_concentration_pct", .num (round1 top5)),
     ("top5_vendors", .list (sorted_vendors.map (fun kv =>
       .obj [("vendor", .str kv.1), ("amount", .num kv.2)])))]
  else if aggregation = "by_vendor" then
    let by_vendor := filtered.foldl
      (fun d inv => updAssoc inv.vendor (fun old => old.getD 0 + inv.amount) d) []
    let sorted_vendors := sortDescBy (fun kv => kv.2) by_vendor
    let total_amount := (sorted_vendors.map (fun kv => kv.2)).sum
    [("items", .list ((pySlice limit sorted_vendors).map (fun kv =>
       .obj [("vendor", .str kv.1), ("amount", .num kv.2)]))),
     ("total_vendors", .num (sorted_vendors.length : ℚ)),
     ("total_amount", .num (round2 total_amount)),
     ("note", .str ("Showing top " ++
       toString (min (orDefault limit 50) sorted_vendors.length) ++ " of " ++
       toString sorted_vendors.length ++ " vendors. Total from ALL vendors."))]
  else if aggregation = "aging" then
    let current := (filtered.filter (fun i => decide (i.days_outstanding ≤ 30))).map
      (fun i => i.amount)
    let d31 := (filtered.filter (fun i =>
      decide (30 < i.days_outstanding) && decide (i.days_outstanding ≤ 60))).map
      (fun i => i.amount)
    let d61 := (filtered.filter (fun i =>
      decide (60 < i.days_outstanding) && decide (i.days_outstanding ≤ 90))).map
      (fun i => i.amount)
    let d90 := (filtered.filter (fun i => decide (90 < i.days_outstanding))).map
      (fun i => i.amount)
    [("current", .num current.sum), ("days_31_60", .num d31.sum),
     ("days_61_90", .num d61.sum), ("days_90_plus", .num d90.sum)]
  else
    let total_amount := (filtered.map (fun i => i.amount)).sum
    -- `i.get('retainage', 0)`: the AP item dicts carry no `retainage` key
    let total_retainage := (filtered.map (fun _ => (0 : ℚ))).sum
    let weighted_days := (filtered.map (fun i => i.amount * (i.days_outstanding : ℚ))).sum
    let avg_days := if 0 < total_amount then weighted_days / total_amount else 0
    let sorted := sortDescBy (fun x => x.amount) filtered
    [("items", .list ((pySlice limit sorted).map APItem.toObj)),
     ("total_count", .num (sorted.length : ℚ)),
     ("total_amount", .num (round2 total_amount)),
     ("total_retainage", .num (round2 total_retainage)),
     ("avg_days_outstanding", .num (round1 avg_days)),
     ("note", .str ("Showing top " ++ toString (min (orDefault limit 50) sorted.length) ++
       " of " ++ toString sorted.length ++ " invoices. Totals calculated from ALL " ++
       toString sorted.length ++ " invoices."))]

/-- A `gl_history_all` entry: resolved account number and description,
and the month columns present on the record. -/
structure GLEntry where
  account_num : ℤ := 0
  description : String := ""
  monthly : List (String × ℚ) := []
deriving DecidableEq

/-- A filtered GL account row built by the GL branch. -/
structure GLRow where
  account : ℤ
  description : String
  total : ℚ
  monthly : List (String × ℚ)
deriving DecidableEq

/-- A GL row as a result object. -/
def GLRow.toObj (r : GLRow) : RVal :=
  .obj [("account", .num (r.account : ℚ)), ("description", .str r.description),
    ("total", .num r.total), ("monthly", .obj (r.monthly.map (fun kv => (kv.1, .num kv.2))))]

/-- `f"{y}-{str(m).zfill(2)}"`. -/
def monthKey (y : ℤ) (m : Nat) : String :=
  toString y ++ "-" ++ (if m < 10 then "0" ++ toString m else toString m)

/-- The twelve month column names of a year. -/
def yearMonths (y : ℤ) : List String :=
  (List.range' 1 12).map (monthKey y)

/-- The GL branch of `execute_nlq_query` (target `'gl'`). -/
def execGL (filters : Filters) (aggregation : String) (limit : Option Nat)
    (gl_all : List GLEntry) : NLQResult :=
  let account_range := filters.account_range.getD (4000, 5000)
  let years : List ℤ := match filters.year with
    | none => (List.range' 2020 6).map (fun n => (n : ℤ))
    | some y => [y]
  let all_months := years.flatMap yearMonths
  let filtered := gl_all.filterMap (fun entry =>
    if entry.account_num < account_range.1 ∨ account_range.2 ≤ entry.account_num then none
    else
      let total := (all_months.map (fun m => (lookupAssoc entry.monthly m).getD 0)).sum
      if total = 0 then none
      else some
        ({ account := entry.account_num
           description := entry.description
           total := |total|
           monthly := all_months.map (fun m => (m, (lookupAssoc entry.monthly m).getD 0)) }
          : GLRow))
  let yearsVal : RVal := .list (years.map (fun y => .num (y : ℚ)))
  if aggregation = "sum" then
    [("total", .num ((filtered.map (fun e => e.total)).sum)), ("years", yearsVal)]
  else if aggregation = "by_month" then
    [("monthly", .obj (all_months.map (fun m =>
       (m, .num ((filtered.map (fun e => |(lookupAssoc e.monthly m).getD 0|)).sum))))),
     ("years", yearsVal)]
  else if aggregation = "by_year" then
    [("yearly", .obj (years.map (fun y =>
       (toString y, .num (((yearMonths y).map (fun m =>
         (filtered.map (fun e => |(lookupAssoc e.monthly m).getD 0|)).sum)).sum))))),
     ("years", yearsVal)]
  else
    let sorted := sortDescBy (fun x => x.total) filtered
    [("items", .list ((pySlice limit sorted).map GLRow.toObj)),
     ("total", .num ((sorted.map (fun e => e.total)).sum)), ("years", yearsVal)]

/-- The per-PM dict the `pm_summary` branch builds from a cache PM row.
The keys the cache rows do not carry (`closed_jobs`, `active_profit`,
`active_avg_margin`, `active_valid_for_profit`, `closed_profit`,
`closed_avg_margin`, `closed_valid_for_profit`) come out of
`pm_data.get(..., 0)` as `0`. -/
structure PMListItem where
  pm : String
  jobs : Nat
  active_jobs : Nat
  closed_jobs : ℚ
  jobs_with_budget : Nat
  jobs_valid_for_profit : Nat
  contract : ℚ
  budget_cost : ℚ
  actual_cost : ℚ
  billed : ℚ
  earned_revenue : ℚ
  backlog : ℚ
  profit : ℚ
  margin : ℚ
  avg_completion : ℚ
  active_profit : ℚ
  active_margin : ℚ
  active_valid_for_profit : ℚ
  closed_profit : ℚ
  closed_margin : ℚ
  closed_valid_for_profit : ℚ
deriving DecidableEq

/-- Field mapping from a cache `aggregate_pm_metrics` row. -/
def PMListItem.ofSummary (p : PMSummary) : PMListItem :=
  { pm := p.project_manager
    jobs := p.total_jobs
    active_jobs := p.active_jobs
    closed_jobs := 0
    jobs_with_budget := p.jobs_with_budget
    jobs_valid_for_profit := p.jobs_valid_for_profit
    contract := p.total_contract
    budget_cost := p.total_budget
    actual_cost := p.total_actual
    billed := p.total_billed
    earned_revenue := p.total_earned_revenue
    backlog := p.total_backlog
    profit := p.total_profit
    margin := p.avg_margin
    avg_completion := p.avg_completion
    active_profit := 0
    active_margin := 0
    active_valid_for_profit := 0
    closed_profit := 0
    closed_margin := 0
    closed_valid_for_profit := 0 }

/-- Dynamic numeric access `p.get(field, 0)` on a PM list item. -/
def PMListItem.getNum (p : PMListItem) (field : String) : ℚ :=
  if field = "jobs" then (p.jobs : ℚ)
  else if field = "active_jobs" then (p.active_jobs : ℚ)
  else if field = "closed_jobs" then p.closed_jobs
  else if field = "jobs_with_budget" then (p.jobs_with_budget : ℚ)
  else if field = "jobs_valid_for_profit" then (p.jobs_valid_for_profit : ℚ)
  else if field = "contract" then p.contract
  else if field = "budget_cost" then p.budget_cost
  else if field = "actual_cost" then p.actual_cost
  else if field = "billed" then p.billed
  else if field = "earned_revenue" then p.earned_revenue
  else if field = "backlog" then p.backlog
  else if field = "profit" then p.profit
  else if field = "margin" then p.margin
  else if field = "avg_completion" then p.avg_completion
  else if field = "active_profit" then p.active_profit
  else if field = "active_margin" then p.active_margin
  else if field = "active_valid_for_profit" then p.active_valid_for_profit
  else if field = "closed_profit" then p.closed_profit
  else if field = "closed_margin" then p.closed_margin
  else if field = "closed_valid_for_profit" then p.closed_valid_for_profit
  else 0

/-- A PM list item as a result object, in dict insertion order. -/
def PMListItem.toObj (p : PMListItem) : RVal :=
  .obj [("pm", .str p.pm), ("jobs", .num (p.jobs : ℚ)),
    ("active_jobs", .num (p.active_jobs : ℚ)), ("closed_jobs", .num p.closed_jobs),
    ("jobs_with_budget", .num (p.jobs_with_budget : ℚ)),
    ("jobs_valid_for_profit", .num (p.jobs_valid_for_profit : ℚ)),
    ("contract", .num p.contract), ("budget_cost", .num p.budget_cost),
    ("actual_cost", .num p.actual_cost), ("billed", .num p.billed),
    ("earned_revenue", .num p.earned_revenue), ("backlog", .num p.backlog),
    ("profit", .num p.profit), ("margin", .num p.margin),
    ("avg_completion", .num p.avg_completion), ("active_profit", .num p.active_profit),
    ("active_margin", .num p.active_margin),
    ("active_valid_for_profit", .num p.active_valid_for_profit),
    ("closed_profit", .num p.closed_profit), ("closed_margin", .num p.closed_margin),
    ("closed_valid_for_profit", .num p.closed_valid_for_profit)]

/-- The `pm_summary` branch of `execute_nlq_query`. -/
def execPMSummary (filters : Filters) (aggregation : String) (fields : List String)
    (sort_by : Option String) (sort_order : String) (limit : Option Nat)
    (all_pm : List PMSummary) : NLQResult :=
  let pm_list := all_pm.map PMListItem.ofSummary
  let pm_list := match filters.pm with
    | some f => pm_list.filter (fun p => pm_matches p.pm f)
    | none => pm_list
  let sort_by_field := match sort_by with
    | some s => s
    | none => fields.headD "active_jobs"
  let sorted :=
    if aggregation = "margin_analysis" ∨ aggregation = "bottom" then
      sortAscBy (fun x => x.margin) pm_list
    else if sort_order = "desc" then sortDescBy (fun x => x.getNum sort_by_field) pm_list
    else sortAscBy (fun x => x.getNum sort_by_field) pm_list
  let grand_total_profit := (sorted.map (fun p => p.profit)).sum
  let grand_total_contract := (sorted.map (fun p => p.contract)).sum
  let grand_total_jobs := (sorted.map (fun p => p.jobs)).sum
  let grand_avg_margin :=
    if sorted.length ≠ 0 then ((sorted.map (fun p => p.margin)).sum) / (sorted.length : ℚ)
    else 0
  [("items", .list ((pySlice limit sorted).map PMListItem.toObj)),
   ("total_pms", .num (sorted.length : ℚ)),
   ("grand_total_profit", .num (round2 grand_total_profit)),
   ("grand_total_contract", .num (round2 grand_total_contract)),
   ("grand_total_jobs", .num (grand_total_jobs : ℚ)),
   ("grand_avg_margin", .num (round2 grand_avg_margin)),
   ("note", .str ("Showing " ++ toString (min (orDefault limit 50) sorted.length) ++ " of " ++
     toString sorted.length ++ " PMs. Grand totals from ALL " ++
     toString sorted.length ++ " PMs."))]

/-- The `pm_comparison` branch of `execute_nlq_query`. -/
def execPMComparison (filters : Filters) (all_pm : List PMSummary)
    (ar_invoices : List ARMetric) : NLQResult :=
  let pm_names := (splitCommas (filters.pm.getD "")).map pyStrip |>.filter (fun p => p ≠ "")
  if pm_names.length < 2 then
    [("error", .str "pm_comparison requires at least 2 PM names separated by commas")]
  else
    let ar_by_pm := ar_invoices.foldl
      (fun d inv => updAssoc inv.project_manager (fun old => old.getD 0 + inv.collectible) d) []
    let comparison := pm_names.map (fun pm_name =>
      let matched := all_pm.find? (fun p =>
        strContains (strLower p.project_manager) (strLower pm_name))
      match matched with
      | some m =>
        (pm_name, RVal.obj [("active_jobs", .num (m.active_jobs : ℚ)),
          ("total_jobs", .num (m.total_jobs : ℚ)), ("contract", .num m.total_contract),
          ("budget_cost", .num m.total_budget), ("actual_cost", .num m.total_actual),
          ("billed", .num m.total_billed),
          ("ar_balance", .num ((lookupAssoc ar_by_pm m.project_manager).getD 0)),
          ("profit", .num m.total_profit), ("margin", .num m.avg_margin)])
      | none =>
        (pm_name, RVal.obj [("active_jobs", .num 0), ("total_jobs", .num 0),
          ("contract", .num 0), ("budget_cost", .num 0), ("actual_cost", .num 0),
          ("billed", .num 0), ("ar_balance", .num 0), ("profit", .num 0),
          ("margin", .num 0)]))
    [("comparison", .obj comparison),
     ("pm_names", .list (pm_names.map (fun n => .str n)))]

/-- A cash account row fetched from the cash endpoint
(`balance` models `float(a.get('balance', 0) or 0)`). -/
structure CashAccount where
  name : String := ""
  balance : ℚ := 0
deriving DecidableEq

/-- A cash transaction row.  `date` is the day number the ISO date of
the row parses to, or `none` when `datetime.strptime` raises (the
source swallows that row); `amount` models `float(t.get('amount', 0) or 0)`. -/
structure CashTxn where
  date : Option ℤ := none
  account : String := ""
  amount : ℚ := 0
deriving DecidableEq

/-- A transaction as a result object. -/
def CashTxn.toObj (t : CashTxn) : RVal :=
  .obj [("date", .num ((t.date.getD 0 : ℤ) : ℚ)), ("account", .str t.account),
    ("amount", .num t.amount)]

/-- The payload of a successful cash fetch. -/
structure CashData where
  accounts : List CashAccount := []
  transactions : List CashTxn := []
deriving DecidableEq

/-- The outcome of the cash branch's HTTP fetch: a 200 response with a
payload, a non-200 status, or a raised exception. -/
inductive CashFetch where
  | ok (d : CashData)
  | badStatus
  | exc (msg : String)

/-- Whether an account or transaction belongs to an FTG Builders
account (`any(x in name for x in ['1883', '2469', '7554'])`). -/
def isFtgAccount (name : String) : Bool :=
  strContains name "1883" || strContains name "2469" || strContains name "7554"

/-- Skip leading whitespace (the `\s*` of the date-range patterns). -/
def skipWs : List Char → List Char
  | [] => []
  | c :: r => if c.isWhitespace then skipWs r else c :: r

/-- The value and remainder of the maximal digit run at the head. -/
def grabNat (acc : Nat) : List Char → (Nat × List Char)
  | c :: r =>
    if c.isDigit then grabNat (acc * 10 + (c.toNat - 48)) r
    else (acc, c :: r)
  | [] => (acc, [])

/-- `re.search(r'(\d+)\s*word', s)`: the first digit run followed by
optional whitespace and the word.  (The words used, `day` and `week`,
start with a letter, so regex backtracking inside the digit run can
never produce a different match.) -/
def findNumBefore (word : String) : List Char → Option Nat
  | [] => none
  | c :: r =>
    if c.isDigit then
      match grabNat 0 (c :: r) with
      | (n, rest) =>
        if word.data.isPrefixOf (skipWs rest) then some n else findNumBefore word r
    else findNumBefore word r

/-- The date-range parsing of the cash `transactions` aggregation:
days back from today. -/
def parseDateRangeDays (date_range : String) : ℤ :=
  let ls := strLower date_range
  match findNumBefore "day" ls.data with
  | some n => (n : ℤ)
  | none =>
    match findNumBefore "week" ls.data with
    | some n => (n : ℤ) * 7
    | none =>
      if strContains ls "month" then 30
      else if strContains ls "week" then 7
      else 30

/-- The cash branch of `execute_nlq_query` (target `'cash'`).  `today`
models `datetime.now().date()` as a day number. -/
def execCash (filters : Filters) (aggregation : String) (cash : CashFetch)
    (today : ℤ) : NLQResult :=
  match cash with
  | .exc msg => [("error", .str ("Cash data unavailable: " ++ msg))]
  | .badStatus => [("error", .str "Unable to fetch cash data from Google Sheets")]
  | .ok cd =>
    let ftg_accounts := cd.accounts.filter (fun a => isFtgAccount a.name)
    if aggregation = "balance" then
      [("total_balance", .num ((ftg_accounts.map (fun a => a.balance)).sum)),
       ("accounts", .list (ftg_accounts.map (fun a =>
         .obj [("name", .str a.name), ("balance", .num a.balance)])))]
    else if aggregation = "transactions" then
      let date_range := filters.date_range.getD "last 30 days"
      let start_date := today - parseDateRangeDays date_range
      let filtered_txns := cd.transactions.filter (fun t =>
        isFtgAccount t.account &&
          (match t.date with
           | some d => decide (start_date ≤ d)
           | none => false))
      let deposits := filtered_txns.filter (fun t => decide (0 < t.amount))
      let withdrawals := filtered_txns.filter (fun t => decide (t.amount < 0))
      [("date_range", .str (toString start_date ++ " to " ++ toString today)),
       ("deposit_count", .num (deposits.length : ℚ)),
       ("withdrawal_count", .num (withdrawals.length : ℚ)),
       ("deposit_total", .num ((deposits.map (fun t => t.amount)).sum)),
       ("withdrawal_total", .num |(withdrawals.map (fun t => t.amount)).sum|),
       ("net_change", .num ((filtered_txns.map (fun t => t.amount)).sum)),
       ("top_deposits", .list (((sortDescBy (fun t => t.amount) deposits).take 5).map
         CashTxn.toObj)),
       ("top_withdrawals", .list (((sortAscBy (fun t => t.amount) withdrawals).take 5).map
         CashTxn.toObj))]
    else
      [("total_balance", .num ((ftg_accounts.map (fun a => a.balance)).sum)),
       ("account_count", .num (ftg_accounts.length : ℚ)),
       ("accounts", .list (ftg_accounts.map (fun a =>
         .obj [("name", .str a.name), ("balance", .num a.balance)])))]

/-- A raw `job_budgets` record as the `job_detail`/`cost_codes`/
`customers` branches read it from the freshly-loaded NLQ data (numeric
fields already coerced; a coercion failure would surface through the
executor's outer `except` as an error envelope instead). -/
structure RawBudgetRow where
  job_no : String := ""
  job_description : String := ""
  project_manager_name : String := ""
  customer_name : String := ""
  job_status : String := ""
  revised_contract : ℚ := 0
  revised_cost : ℚ := 0
deriving DecidableEq

/-- A raw `job_actuals` record as those branches read it (`job_no`
models the resolved `str(a.get('Job_No') or a.get('job_no', ''))`). -/
structure RawActualRow where
  job_no : String := ""
  value : ℚ := 0
  cost_code : String := ""
  cost_code_desc : String := ""
  project_manager : String := ""
deriving DecidableEq

/-- A raw AR invoice as the `customers` branch reads it. -/
structure RawARRow where
  customer_name : String := ""
  calculated_amount_due : ℚ := 0
  retainage_amount : ℚ := 0
deriving DecidableEq

/-- A raw AP invoice as the `job_detail` branch reads it. -/
structure RawAPRow where
  job_no : String := ""
  vendor_name : String := ""
  invoice_amount : ℚ := 0
deriving DecidableEq

/-- The `job_detail` branch of `execute_nlq_query`. -/
def execJobDetail (filters : Filters) (limit : Option Nat)
    (budgets : List RawBudgetRow) (actuals : List RawActualRow)
    (ap_invoices : List RawAPRow) : NLQResult :=
  let job_no := pyStrip (filters.job_no.getD "")
  if job_no = "" then
    [("error", .str "job_no filter required for job_detail queries")]
  else
    let job_budget := budgets.find? (fun j => j.job_no = job_no)
    let job_actual_cost :=
      ((actuals.filter (fun a => a.job_no = job_no)).map (fun a => a.value)).sum
    let job_ap := ap_invoices.filter (fun inv => inv.job_no = job_no)
    let vendor_spend := job_ap.foldl
      (fun d inv => updAssoc inv.vendor_name (fun old => old.getD 0 + inv.invoice_amount) d) []
    let top_vendors := (sortDescBy (fun kv => kv.2) vendor_spend).take (orDefault limit 10)
    [("job_no", .str job_no),
     ("job_description", .str (match job_budget with
       | some b => b.job_description
       | none => "Job not found")),
     ("project_manager", .str ((job_budget.map (fun b => b.project_manager_name)).getD "")),
     ("customer", .str ((job_budget.map (fun b => b.customer_name)).getD "")),
     ("status", .str ((job_budget.map (fun b => b.job_status)).getD "")),
     ("revised_contract", .num ((job_budget.map (fun b => b.revised_contract)).getD 0)),
     ("revised_cost_budget", .num ((job_budget.map (fun b => b.revised_cost)).getD 0)),
     ("actual_cost", .num job_actual_cost),
     ("total_ap_spend", .num ((vendor_spend.map (fun kv => kv.2)).sum)),
     ("ap_invoice_count", .num (job_ap.length : ℚ)),
     ("top_vendors", .list (top_vendors.map (fun kv =>
       .obj [("vendor", .str kv.1), ("spend", .num kv.2)])))]

/-- A filtered cost-code actual row. -/
structure CostCodeItem where
  job_no : String
  cost_code : String
  cost_code_desc : String
  value : ℚ
  pm : String
deriving DecidableEq

/-- A cost-code group. -/
structure CostCodeGroup where
  cost_code : String
  description : String
  total : ℚ := 0
  job_count : Nat := 0
deriving DecidableEq

/-- The `cost_codes` branch of `execute_nlq_query`. -/
def execCostCodes (filters : Filters) (aggregation : String) (limit : Option Nat)
    (actuals : List RawActualRow) (budgets : List RawBudgetRow) : NLQResult :=
  let pm_by_job := budgets.foldl
    (fun d b => updAssoc b.job_no (fun _ => b.project_manager_name) d) []
  let filtered := actuals.filterMap (fun a =>
    let pm := (lookupAssoc pm_by_job a.job_no).getD a.project_manager
    if strContains (strLower pm) "josh angelo" then none
    else if optRejects filters.pm (fun v => !pm_matches pm v) then none
    else if optRejects filters.job_no (fun v => decide (v ≠ a.job_no)) then none
    else if optRejects filters.cost_code (fun v => decide (v ≠ a.cost_code)) then none
    else some
      ({ job_no := a.job_no, cost_code := a.cost_code, cost_code_desc := a.cost_code_desc,
         value := a.value, pm := pm } : CostCodeItem))
  if aggregation = "by_cost_code" then
    let by_cc := filtered.foldl
      (fun d item => updAssoc item.cost_code (fun old =>
        let g : CostCodeGroup :=
          old.getD { cost_code := item.cost_code, description := item.cost_code_desc }
        { g with total := g.total + item.value, job_count := g.job_count + 1 }) d) []
    let sorted_cc := sortDescBy (fun g => g.total) (by_cc.map (fun kv => kv.2))
    let grand_total := (sorted_cc.map (fun g => g.total)).sum
    [("items", .list ((sorted_cc.take (orDefault limit 20)).map (fun g =>
       .obj [("cost_code", .str g.cost_code), ("description", .str g.description),
         ("total", .num g.total), ("job_count", .num (g.job_count : ℚ))]))),
     ("total_cost_codes", .num (by_cc.length : ℚ)),
     ("grand_total", .num (round2 grand_total)),
     ("note", .str ("Showing top " ++ toString (min (orDefault limit 20) sorted_cc.length) ++
       " of " ++ toString sorted_cc.length ++ " cost codes. Grand total from ALL cost codes."))]
  else
    [("total_cost", .num ((filtered.map (fun i => i.value)).sum)),
     ("record_count", .num (filtered.length : ℚ))]

/-- A customer group of the `customers` branch. -/
structure CustomerGroup where
  customer : String
  job_count : Nat := 0
  active_jobs : Nat := 0
  contract : ℚ := 0
  ar_balance : ℚ := 0
  ar_retainage : ℚ := 0
  invoice_count : Nat := 0
deriving DecidableEq

/-- Dynamic numeric access `x.get(sort_field, 0)` on a customer group. -/
def CustomerGroup.getNum (g : CustomerGroup) (field : String) : ℚ :=
  if field = "job_count" then (g.job_count : ℚ)
  else if field = "active_jobs" then (g.active_jobs : ℚ)
  else if field = "contract" then g.contract
  else if field = "ar_balance" then g.ar_balance
  else if field = "ar_retainage" then g.ar_retainage
  else if field = "invoice_count" then (g.invoice_count : ℚ)
  else 0

/-- A customer group as a result object. -/
def CustomerGroup.toObj (g : CustomerGroup) : RVal :=
  .obj [("customer", .str g.customer), ("job_count", .num (g.job_count : ℚ)),
    ("active_jobs", .num (g.active_jobs : ℚ)), ("contract", .num g.contract),
    ("ar_balance", .num g.ar_balance), ("ar_retainage", .num g.ar_retainage),
    ("invoice_count", .num (g.invoice_count : ℚ))]

/-- The `customers` branch of `execute_nlq_query`. -/
def execCustomers (filters : Filters) (sort_by : Option String) (sort_order : String)
    (limit : Option Nat) (budgets : List RawBudgetRow) (ar_invoices : List RawARRow) :
    NLQResult :=
  let customer_data := budgets.foldl
    (fun d job =>
      if job.customer_name = "" then d
      else if strContains (strLower job.project_manager_name) "josh angelo" then d
      else if optRejects filters.pm (fun v => !pm_matches job.project_manager_name v) then d
      else if optRejects filters.status (fun v => decide (job.job_status ≠ v)) then d
      else updAssoc job.customer_name (fun old =>
        let g : CustomerGroup := old.getD { customer := job.customer_name }
        { g with
          job_count := g.job_count + 1
          active_jobs := if job.job_status = "A" then g.active_jobs + 1 else g.active_jobs
          contract := g.contract + job.revised_contract }) d) []
  let customer_data := ar_invoices.foldl
    (fun d inv =>
      if inv.customer_name = "" then d
      else
        let collectible := max 0 (inv.calculated_amount_due - inv.retainage_amount)
        updAssoc inv.customer_name (fun old =>
          let g : CustomerGroup := old.getD { customer := inv.customer_name }
          { g with
            ar_balance := g.ar_balance + collectible
            ar_retainage := g.ar_retainage + inv.retainage_amount
            invoice_count := g.invoice_count + 1 }) d) customer_data
  let sort_field := sort_by.getD "contract"
  let groups := customer_data.map (fun kv => kv.2)
  let sorted_customers :=
    if sort_order = "desc" then sortDescBy (fun x => x.getNum sort_field) groups
    else sortAscBy (fun x => x.getNum sort_field) groups
  let grand_total_contract := (sorted_customers.map (fun c => c.contract)).sum
  let grand_total_ar := (sorted_customers.map (fun c => c.ar_balance)).sum
  let grand_total_jobs := (sorted_customers.map (fun c => c.job_count)).sum
  [("items", .list ((sorted_customers.take (orDefault limit 20)).map CustomerGroup.toObj)),
   ("total_customers", .num (customer_data.length : ℚ)),
   ("grand_total_contract", .num (round2 grand_total_contract)),
   ("grand_total_ar", .num (round2 grand_total_ar)),
   ("grand_total_jobs", .num (grand_total_jobs : ℚ)),
   ("note", .str ("Showing top " ++
     toString (min (orDefault limit 20) sorted_customers.length) ++ " of " ++
     toString sorted_customers.length ++ " customers. Totals from ALL customers."))]

/-- Everything `execute_nlq_query` reads: the pre-computed metric
collections of the module-level `metrics_cache`, the raw collections
of the `data` argument (`load_nlq_data()`), the cash-endpoint fetch
outcome and the current date. -/
structure NLQData where
  cacheJobs : List JobMetrics := []
  cacheAR : List ARMetric := []
  cacheAP : List APMetric := []
  cachePM : List PMSummary := []
  rawBudgets : List RawBudgetRow := []
  rawActuals : List RawActualRow := []
  rawARInvoices : List RawARRow := []
  rawAPInvoices : List RawAPRow := []
  gl : List GLEntry := []
  cash : CashFetch := .badStatus
  today : ℤ := 0

/-- `server.execute_nlq_query(query_plan, data)`: dispatch on the
target collection.  An unknown target yields the typed error envelope. -/
def execute_nlq_query (plan : Plan) (data : NLQData) : NLQResult :=
  let target := plan.target_data
  let filters := plan.filters
  let aggregation := plan.aggregation
  let fields := plan.fields
  let limit := plan.limit.get
  if target = "jobs" then
    execJobs filters aggregation fields plan.sort_by limit data.cacheJobs
  else if target = "ar" then
    execAR filters aggregation limit data.cacheAR
  else if target = "ap" then
    execAP filters aggregation limit data.cacheAP
  else if target = "gl" then
    execGL filters aggregation limit data.gl
  else if target = "pm_summary" then
    execPMSummary filters aggregation fields plan.sort_by plan.sort_order limit data.cachePM
  else if target = "pm_comparison" then
    execPMComparison filters data.cachePM data.cacheAR
  else if target = "cash" then
    execCash filters aggregation data.cash data.today
  else if target = "job_detail" then
    execJobDetail filters limit data.rawBudgets data.rawActuals data.rawAPInvoices
  else if target = "cost_codes" then
    execCostCodes filters aggregation limit data.rawActuals data.rawBudgets
  else if target = "customers" then
    execCustomers filters plan.sort_by plan.sort_order limit data.rawBudgets data.rawARInvoices
  else
    [("error", .str ("Unknown target: " ++ target))]

/-! ## Definitions used by the verification statements -/

/-- The keys of a result envelope whose values are truncated by the
display limit (`items`, the `job_detail` branch's `top_vendors`) or
mention it in display text (`note`).  Everything else in an envelope
is an aggregate or descriptive field. -/
def stripLimited : NLQResult → NLQResult
  | [] => []
  | (k, v) :: rest =>
    if k = "items" ∨ k = "top_vendors" ∨ k = "note" then stripLimited rest
    else (k, v) :: stripLimited rest

/-- The value of a key inside the `i`-th element of the `items` array
of an envelope. -/
def itemField (r : NLQResult) (i : Nat) (key : String) : Option RVal :=
  match dictGet r "items" with
  | some (.list l) =>
    match l.get? i with
    | some (.obj o) => dictGet o key
    | _ => none
  | _ => none

/-- Whether a job row survives the hard-coded jobs-branch exclusion. -/
def joshFree (j : JobMetrics) : Bool :=
  !(strContains (strLower j.project_manager) "josh angelo")

/-- Setting a plan's display limit. -/
def withLimit (plan : Plan) (n : Nat) : Plan :=
  { plan with limit := .val n }

/-- Jobs relevant to the PM-aggregation row keyed `k`: rows that enter
the aggregation at all (non-empty trimmed PM name, not excluded) and
whose trimmed PM name is `k`. -/
def pmRelevant (k : String) (j : JobMetrics) : Bool :=
  pmIncluded true j && decide (pmKey j = k)

/-- A closed job record with numeric budget fields (witness input). -/
def jobC5 : JobRec :=
  { job_status := "C", revised_cost := .num 3, revised_contract := .num 7 }

/-- An active job record with a positive budget (witness input). -/
def jobC6 : JobRec :=
  { job_status := "A", revised_cost := .num 80, revised_contract := .num 100 }

/-- A job record whose numeric fields are all coercible (witness input). -/
def jobC9 : JobRec :=
  { job_status := "A", revised_cost := .str "", revised_contract := .none,
    original_contract := .num 5, original_cost := .num 5 }

/-- A job record whose `revised_cost` holds a non-numeric string. -/
def jobC9bad : JobRec := { revised_cost := .str "abc" }

/-- The `days_outstanding` of a successfully computed AR metric. -/
def arDaysOf (r : Except String (Option ARMetric)) : Option ℤ :=
  match r with
  | .ok (some m) => some m.days_outstanding
  | _ => none

/-- An unpaid AR invoice whose raw `days_outstanding` is negative. -/
def arNegDays : RawARInvoice :=
  { calculated_amount_due := .num 100, days_outstanding := .num (-5) }

/-- An unpaid AR invoice with non-negative raw days (witness input). -/
def invC8ar : RawARInvoice :=
  { calculated_amount_due := .num 50, days_outstanding := .num 10 }

/-- An unpaid, non-excluded AP invoice (witness input). -/
def invC8ap : RawAPInvoice :=
  { remaining_balance := .num 50, vendor_name := "Acme", days_outstanding := .num 0 }

/-- A job metrics row standing for the previous good snapshot. -/
def jmOld : JobMetrics :=
  { job_no := "1", job_description := "", project_manager := "Pat", customer_name := "",
    job_status := "A", original_contract := 0, contract := 0, original_cost := 0,
    budget_cost := 0, actual_cost := 0, billed := 0, has_budget := false,
    percent_complete := 0, earned_revenue := 0, backlog := 0, profit := 0, margin := 0,
    valid_for_profit := false, profit_basis := "projected", over_under_billing := 0 }

/-- A cache state holding the previous good snapshot. -/
def stC4 : MetricsCacheState := { jobs_metrics := [jmOld] }

/-- Load outcomes where the jobs extract loads but the AR extract raises. -/
def loadsC4 : LoadOutcomes :=
  { jobsLoad := .ok {}, arLoad := .error "boom", apLoad := .ok [] }

/-- A jobs-target plan (witness input). -/
def planC10 : Plan := { target_data := "jobs" }

/-- A jobs-target plan carrying an unrecognised aggregation verb. -/
def planC3 : Plan := { target_data := "jobs", aggregation := "frobnicate" }

/-- The raw budget record of a closed job with no contract value. -/
def jobRecC2 : JobRec :=
  { job_no := "7", project_manager_name := "Alice", customer_name := "Acme",
    job_status := "C" }

/-- The metrics row `calculate_job_metrics` computes for `jobRecC2` with actual cost 50 and billed 100: closed-basis margin 50, valid for profit. -/
def jmC2 : JobMetrics :=
  { job_no := "7", job_description := "", project_manager := "Alice", customer_name := "Acme",
    job_status := "C", original_contract := 0, contract := 0, original_cost := 0,
    budget_cost := 0, actual_cost := 50, billed := 100, has_budget := false,
    percent_complete := 0, earned_revenue := 0, backlog := 0, profit := 50, margin := 50,
    valid_for_profit := true, profit_basis := "actual", over_under_billing := 100 }

/-- A jobs-target plan with the `by_pm` aggregation verb. -/
def planC2 : Plan := { target_data := "jobs", aggregation := "by_pm" }

/-- Executor data whose jobs cache holds exactly `jmC2`. -/
def dataC2 : NLQData := { cacheJobs := [jmC2] }

/-- Executor data with a one-job cache (witness input). -/
def dataC1 : NLQData := { cacheJobs := [jmC2] }

/-- Scenario E: a valid job with margin 10 for PM Pat. -/
def jE1 : JobMetrics :=
  { job_no := "1", job_description := "", project_manager := "Pat", customer_name := "",
    job_status := "A", original_contract := 0, contract := 0, original_cost := 0,
    budget_cost := 0, actual_cost := 0, billed := 0, has_budget := false,
    percent_complete := 0, earned_revenue := 0, backlog := 0, profit := 0, margin := 10,
    valid_for_profit := true, profit_basis := "projected", over_under_billing := 0 }

/-- Scenario E: a valid job with margin 30 for PM Pat. -/
def jE2 : JobMetrics := { jE1 with job_no := "2", margin := 30 }

/-- Scenario E: an invalid job (margin 999) that must not enter the average. -/
def jE3 : JobMetrics := { jE1 with job_no := "3", margin := 999, valid_for_profit := false }

/-- Scenario E: the three jobs of PM Pat. -/
def jobsE : List JobMetrics := [jE1, jE2, jE3]

/-- The accumulator the PM fold builds over Scenario E. -/
def accE : PMAcc := pmAccAdd (pmAccAdd (pmAccAdd {} jE1) jE2) jE3

/-- The PM summary row for Pat over Scenario E. -/
def rowE : PMSummary := pmFinalize "Pat" accE

/-! ## Theorems -/

/-- `Except.ok` bind computes. -/
theorem except_ok_bind {ε α β : Type} (a : α) (f : α → Except ε β) :
    (Except.ok (ε := ε) a >>= f) = f a := rfl

/-- `Except.error` bind propagates. -/
theorem except_error_bind {ε α β : Type} (e : ε) (f : α → Except ε β) :
    (Except.error (α := α) e >>= f : Except ε β) = .error e := rfl

/-- `pure` in the `Except` monad is `Except.ok`. -/
theorem except_pure_eq {ε α : Type} (a : α) : (pure a : Except ε α) = .ok a := rfl

/-- Rounding zero gives zero. -/
theorem round2_zero : round2 0 = 0 := by
  simp [round2]

/-- Truncation toward zero preserves non-negativity. -/
theorem truncQ_nonneg {q : ℚ} (h : 0 ≤ q) : 0 ≤ truncQ q := by
  simp only [truncQ, if_pos h]
  exact Int.floor_nonneg.mpr h

/-- Membership in a stable insertion. -/
theorem mem_sortedInsert (le : α → α → Bool) (x a : α) (l : List α) :
    a ∈ sortedInsert le x l ↔ a = x ∨ a ∈ l := by
  induction l with
  | nil => simp [sortedInsert]
  | cons y ys ih =>
    by_cases h : le x y
    · simp [sortedInsert, h]
    · simp [sortedInsert, h, ih]
      tauto

/-- Sorting does not change the members of a list. -/
theorem mem_stableSort (le : α → α → Bool) (a : α) (l : List α) :
    a ∈ stableSort le l ↔ a ∈ l := by
  induction l with
  | nil => simp [stableSort]
  | cons y ys ih =>
    simp only [stableSort, List.foldr_cons] at ih ⊢
    rw [mem_sortedInsert, ih, List.mem_cons]

/-- Lookup after a dict update: the updated key maps to the new value, every other key is untouched. -/
theorem lookupAssoc_updAssoc (k k' : String) (f : Option β → β) (d : List (String × β)) :
    lookupAssoc (updAssoc k f d) k' =
      if k' = k then some (f (lookupAssoc d k)) else lookupAssoc d k' := by
  induction d with
  | nil =>
    by_cases h : k' = k
    · subst h
      simp [updAssoc, lookupAssoc]
    · have h2 : ¬(k = k') := fun hc => h hc.symm
      simp [updAssoc, lookupAssoc, h, h2]
  | cons kv rest ih =>
    obtain ⟨k0, v0⟩ := kv
    by_cases h0 : k0 = k
    · subst h0
      by_cases h1 : k' = k0
      · subst h1
        simp [updAssoc, lookupAssoc]
      · have h2 : ¬(k0 = k') := fun hc => h1 hc.symm
        simp [updAssoc, lookupAssoc, h1, h2]
    · by_cases h1 : k' = k0
      · subst h1
        have h2 : ¬(k' = k) := fun hc => h0 (hc ▸ rfl)
        simp [updAssoc, lookupAssoc, h0, h2]
      · have h2 : ¬(k0 = k') := fun hc => h1 hc.symm
        simp [updAssoc, lookupAssoc, h0, h1, h2, ih]

/-- In a dict with distinct keys, a member pair is the lookup result of its key. -/
theorem lookupAssoc_of_mem_nodup (d : List (String × β)) (hnd : (d.map Prod.fst).Nodup)
    (k : String) (a : β) (hmem : (k, a) ∈ d) : lookupAssoc d k = some a := by
  induction d with
  | nil => cases hmem
  | cons kv rest ih =>
    obtain ⟨k0, v0⟩ := kv
    simp only [List.map_cons, List.nodup_cons] at hnd
    rcases List.mem_cons.mp hmem with heq | hmem'
    · cases heq
      simp [lookupAssoc]
    · by_cases h : k0 = k
      · subst h
        exact absurd (List.mem_map.mpr ⟨(k0, a), hmem', rfl⟩) hnd.1
      · simpa [lookupAssoc, h] using ih hnd.2 hmem'

/-- The keys after a dict update are the old keys plus the updated key. -/
theorem mem_keys_updAssoc (k k' : String) (f : Option β → β) (d : List (String × β)) :
    k' ∈ (updAssoc k f d).map Prod.fst ↔ k' = k ∨ k' ∈ d.map Prod.fst := by
  induction d with
  | nil => simp [updAssoc]
  | cons kv rest ih =>
    obtain ⟨k0, v0⟩ := kv
    by_cases h : k0 = k
    · subst h
      simp [updAssoc]
      try tauto
    · simp [updAssoc, h, ih]
      try tauto

/-- A dict update preserves key distinctness. -/
theorem nodupKeys_updAssoc (k : String) (f : Option β → β) (d : List (String × β))
    (h : (d.map Prod.fst).Nodup) : ((updAssoc k f d).map Prod.fst).Nodup := by
  induction d with
  | nil => simp [updAssoc]
  | cons kv rest ih =>
    obtain ⟨k0, v0⟩ := kv
    simp only [List.map_cons, List.nodup_cons] at h
    by_cases h0 : k0 = k
    · subst h0
      simp only [updAssoc, if_pos rfl, if_true, eq_self_iff_true, List.map_cons,
        List.nodup_cons]
      exact h
    · simp only [updAssoc, if_neg h0, List.map_cons, List.nodup_cons]
      refine ⟨?_, ih h.2⟩
      intro hc
      rcases (mem_keys_updAssoc k k0 f rest).mp hc with heq | hmem
      · exact h0 heq
      · exact h.1 hmem

/-- The PM accumulation fold preserves key distinctness. -/
theorem nodupKeys_pmTable_fold (excl : Bool) (l : List JobMetrics)
    (d : List (String × PMAcc)) (h : (d.map Prod.fst).Nodup) :
    ((l.foldl (pmFoldStep excl) d).map Prod.fst).Nodup := by
  induction l generalizing d with
  | nil => exact h
  | cons j rest ih =>
    simp only [List.foldl_cons]
    apply ih
    unfold pmFoldStep
    by_cases hj : pmIncluded excl j = true
    · simp only [if_pos hj]
      exact nodupKeys_updAssoc _ _ _ h
    · simp only [if_neg hj]
      exact h

/-- Characterisation of the PM accumulation fold: the entry of a key accumulates exactly the jobs relevant to that key, in input order. -/
theorem lookup_pmTable_fold (k : String) (l : List JobMetrics) (d : List (String × PMAcc)) :
    lookupAssoc (l.foldl (pmFoldStep true) d) k =
      (match lookupAssoc d k with
      | some a => some ((l.filter (pmRelevant k)).foldl pmAccAdd a)
      | none =>
        if (l.filter (pmRelevant k)).isEmpty then none
        else some ((l.filter (pmRelevant k)).foldl pmAccAdd ({} : PMAcc))) := by
  induction l generalizing d with
  | nil =>
    cases hd : lookupAssoc d k <;> simp [hd]
  | cons j rest ih =>
    simp only [List.foldl_cons, List.filter_cons]
    by_cases hinc : pmIncluded true j = true
    · have hstep : pmFoldStep true d j =
          updAssoc (pmKey j) (fun old => pmAccAdd (old.getD {}) j) d := by
        simp [pmFoldStep, hinc]
      by_cases hkey : pmKey j = k
      · have hrel : pmRelevant k j = true := by
          simp [pmRelevant, hinc, hkey]
        rw [hstep, ih, lookupAssoc_updAssoc]
        subst hkey
        simp only [if_pos rfl, hrel, if_true]
        cases hd : lookupAssoc d (pmKey j) <;>
          simp [hd, List.foldl_cons, List.isEmpty_cons]
      · have hrel : pmRelevant k j = false := by
          simp [pmRelevant, hkey]
        rw [hstep, ih, lookupAssoc_updAssoc]
        rw [if_neg (fun hc => hkey hc.symm)]
        simp only [hrel, Bool.false_eq_true, if_false]
    · have hstep : pmFoldStep true d j = d := by
        simp [pmFoldStep, hinc]
      have hrel : pmRelevant k j = false := by
        simp only [pmRelevant, Bool.and_eq_false_iff]
        left
        simpa using hinc
      rw [hstep, ih]
      simp only [hrel, Bool.false_eq_true, if_false]

/-- The ratio numerators and denominators a PM accumulator collects: margin over the valid-for-profit rows, completion over the with-budget rows. -/
theorem pmAccAdd_fold_fields (l : List JobMetrics) (a : PMAcc) :
    (l.foldl pmAccAdd a).margin_sum =
        a.margin_sum + ((l.filter (fun j => j.valid_for_profit)).map (fun j => j.margin)).sum ∧
    (l.foldl pmAccAdd a).jobs_valid_for_profit =
        a.jobs_valid_for_profit + (l.filter (fun j => j.valid_for_profit)).length ∧
    (l.foldl pmAccAdd a).completion_sum =
        a.completion_sum +
          ((l.filter (fun j => j.has_budget)).map (fun j => j.percent_complete)).sum ∧
    (l.foldl pmAccAdd a).jobs_with_budget =
        a.jobs_with_budget + (l.filter (fun j => j.has_budget)).length := by
  induction l generalizing a with
  | nil => simp
  | cons j rest ih =>
    simp only [List.foldl_cons, List.filter_cons]
    obtain ⟨h1, h2, h3, h4⟩ := ih (pmAccAdd a j)
    refine ⟨?_, ?_, ?_, ?_⟩
    · rw [h1]
      by_cases hv : j.valid_for_profit = true <;> simp [pmAccAdd, hv] <;> ring
    · rw [h2]
      by_cases hv : j.valid_for_profit = true <;> simp [pmAccAdd, hv] <;> omega
    · rw [h3]
      by_cases hb : j.has_budget = true <;> simp [pmAccAdd, hb] <;> ring
    · rw [h4]
      by_cases hb : j.has_budget = true <;> simp [pmAccAdd, hb] <;> omega

/-- Deleting the hard-excluded jobs from the input does not change the jobs branch's filtered rows. -/
theorem jobsFiltered_filter_joshFree (f : Filters) (l : List JobMetrics) :
    jobsFiltered f (l.filter joshFree) = jobsFiltered f l := by
  induction l with
  | nil => rfl
  | cons j rest ih =>
    by_cases h : joshFree j = true
    · have hs : strContains (strLower j.project_manager) "josh angelo" = false := by
        simpa [joshFree] using h
      simp only [List.filter_cons, h, if_true, jobsFiltered, List.filterMap_cons, hs] at ih ⊢
      simp only [Bool.false_eq_true, if_false]
      cases hrest : (if optRejects f.job_no (fun v => decide (v ≠ j.job_no)) = true then none
        else if optRejects f.pm (fun v => !pm_matches j.project_manager v) = true then none
        else if optRejects f.status (fun v => decide (j.job_status ≠ v)) = true then none
        else if optRejects f.customer
          (fun v => !strContains (strLower j.customer_name) (strLower v)) = true then none
        else some (JobData.ofMetrics j) : Option JobData) <;>
        first
        | exact ih
        | rw [ih]
    · have hs : strContains (strLower j.project_manager) "josh angelo" = true := by
        by_contra hc
        exact h (by simp [joshFree, Bool.not_eq_true] at hc ⊢; simp [hc])
      simp only [List.filter_cons, h, if_false, jobsFiltered, List.filterMap_cons, hs,
        if_true] at ih ⊢
      exact ih

/-- The jobs branch: every field outside the truncated items and the display note is independent of the limit. -/
theorem stripLimited_execJobs (f : Filters) (agg : String) (fl : List String)
    (sb : Option String) (jobs : List JobMetrics) (l1 l2 : Option Nat) :
    stripLimited (execJobs f agg fl sb l1 jobs) =
    stripLimited (execJobs f agg fl sb l2 jobs) := by
  unfold execJobs
  by_cases h1 : agg = "count"
  · subst h1; rfl
  simp only [if_neg h1]
  by_cases h2 : agg = "sum"
  · subst h2
    simp only [if_pos rfl]
    by_cases hf : field_aliases (fl.headD "contract") = "backlog" ∨
        field_aliases (fl.headD "contract") = "earned_revenue" ∨
        field_aliases (fl.headD "contract") = "percent_complete"
    · simp only [if_pos hf, if_true]
      try rfl
    · simp only [if_neg hf, if_true]
      try rfl
  simp only [if_neg h2]
  by_cases h3 : agg = "average"
  · subst h3
    simp only [if_pos rfl]
    by_cases hf : field_aliases (fl.headD "margin") = "percent_complete" ∨
        field_aliases (fl.headD "margin") = "margin" ∨
        field_aliases (fl.headD "margin") = "earned_revenue" ∨
        field_aliases (fl.headD "margin") = "backlog"
    · simp only [if_pos hf, if_true]
      try rfl
    · simp only [if_neg hf, if_true]
      try rfl
  simp only [if_neg h3]
  by_cases h4 : agg = "top"
  · subst h4; rfl
  simp only [if_neg h4]
  by_cases h5 : agg = "closest_to_completion"
  · subst h5; rfl
  simp only [if_neg h5]
  by_cases h6 : agg = "by_pm"
  · subst h6; rfl
  simp only [if_neg h6]
  by_cases h7 : agg = "by_customer"
  · subst h7; rfl
  simp only [if_neg h7]
  by_cases h8 : agg = "bottom"
  · subst h8; rfl
  simp only [if_neg h8]
  rfl

/-- The AR branch: aggregates are independent of the limit. -/
theorem stripLimited_execAR (f : Filters) (agg : String) (ar : List ARMetric)
    (l1 l2 : Option Nat) :
    stripLimited (execAR f agg l1 ar) = stripLimited (execAR f agg l2 ar) := by
  unfold execAR
  by_cases h1 : agg = "sum"
  · subst h1; rfl
  simp only [if_neg h1]
  by_cases h2 : agg = "by_customer"
  · subst h2; rfl
  simp only [if_neg h2]
  by_cases h3 : agg = "aging"
  · subst h3; rfl
  simp only [if_neg h3]
  by_cases h4 : agg = "by_pm"
  · subst h4; rfl
  simp only [if_neg h4]
  by_cases h5 : agg = "by_job"
  · subst h5; rfl
  simp only [if_neg h5]
  rfl

/-- The AP branch: aggregates are independent of the limit. -/
theorem stripLimited_execAP (f : Filters) (agg : String) (ap : List APMetric)
    (l1 l2 : Option Nat) :
    stripLimited (execAP f agg l1 ap) = stripLimited (execAP f agg l2 ap) := by
  unfold execAP
  by_cases h1 : agg = "sum"
  · subst h1; rfl
  simp only [if_neg h1]
  by_cases h2 : agg = "by_vendor"
  · subst h2; rfl
  simp only [if_neg h2]
  by_cases h3 : agg = "aging"
  · subst h3; rfl
  simp only [if_neg h3]
  rfl

/-- The GL branch: aggregates are independent of the limit. -/
theorem stripLimited_execGL (f : Filters) (agg : String) (gl : List GLEntry)
    (l1 l2 : Option Nat) :
    stripLimited (execGL f agg l1 gl) = stripLimited (execGL f agg l2 gl) := by
  unfold execGL
  by_cases h1 : agg = "sum"
  · subst h1; rfl
  simp only [if_neg h1]
  by_cases h2 : agg = "by_month"
  · subst h2; rfl
  simp only [if_neg h2]
  by_cases h3 : agg = "by_year"
  · subst h3; rfl
  simp only [if_neg h3]
  rfl

/-- The pm_summary branch: aggregates are independent of the limit. -/
theorem stripLimited_execPMSummary (f : Filters) (agg : String) (fl : List String)
    (sb : Option String) (so : String) (pm : List PMSummary) (l1 l2 : Option Nat) :
    stripLimited (execPMSummary f agg fl sb so l1 pm) =
    stripLimited (execPMSummary f agg fl sb so l2 pm) := rfl

/-- The job_detail branch: aggregates are independent of the limit. -/
theorem stripLimited_execJobDetail (f : Filters) (budgets : List RawBudgetRow)
    (actuals : List RawActualRow) (ap : List RawAPRow) (l1 l2 : Option Nat) :
    stripLimited (execJobDetail f l1 budgets actuals ap) =
    stripLimited (execJobDetail f l2 budgets actuals ap) := by
  unfold execJobDetail
  by_cases h1 : pyStrip (f.job_no.getD "") = ""
  · simp only [if_pos h1]
  · simp only [if_neg h1]
    try rfl

/-- The cost_codes branch: aggregates are independent of the limit. -/
theorem stripLimited_execCostCodes (f : Filters) (agg : String)
    (actuals : List RawActualRow) (budgets : List RawBudgetRow) (l1 l2 : Option Nat) :
    stripLimited (execCostCodes f agg l1 actuals budgets) =
    stripLimited (execCostCodes f agg l2 actuals budgets) := by
  unfold execCostCodes
  by_cases h1 : agg = "by_cost_code"
  · subst h1; rfl
  simp only [if_neg h1]
  try rfl

/-- The customers branch: aggregates are independent of the limit. -/
theorem stripLimited_execCustomers (f : Filters) (sb : Option String) (so : String)
    (budgets : List RawBudgetRow) (ar : List RawARRow) (l1 l2 : Option Nat) :
    stripLimited (execCustomers f sb so l1 budgets ar) =
    stripLimited (execCustomers f sb so l2 budgets ar) := rfl

/-- C1: for every query plan and every pair of limits L < N, executing the plan with limit L and with limit N produces identical aggregate fields — every total, count, average, concentration and grand-total field outside the items array (and outside the display note that quotes the limit); the limit only truncates the returned items list and never changes any aggregate statistic computed by execute_nlq_query. -/
theorem nlq_totals_before_limit (target : String) (filters : Filters)
    (aggregation : String) (fields : List String) (sort_by : Option String)
    (sort_order : String) (data : NLQData) (L N : Nat) (h : L < N) :
    stripLimited (execute_nlq_query
      ⟨target, filters, aggregation, fields, sort_by, sort_order, .val L⟩ data) =
    stripLimited (execute_nlq_query
      ⟨target, filters, aggregation, fields, sort_by, sort_order, .val N⟩ data) := by
  simp only [execute_nlq_query, LimitVal.get]
  by_cases h1 : target = "jobs"
  · simp only [if_pos h1]
    exact stripLimited_execJobs filters aggregation fields sort_by data.cacheJobs
      (some L) (some N)
  simp only [if_neg h1]
  by_cases h2 : target = "ar"
  · simp only [if_pos h2]
    exact stripLimited_execAR filters aggregation data.cacheAR (some L) (some N)
  simp only [if_neg h2]
  by_cases h3 : target = "ap"
  · simp only [if_pos h3]
    exact stripLimited_execAP filters aggregation data.cacheAP (some L) (some N)
  simp only [if_neg h3]
  by_cases h4 : target = "gl"
  · simp only [if_pos h4]
    exact stripLimited_execGL filters aggregation data.gl (some L) (some N)
  simp only [if_neg h4]
  by_cases h5 : target = "pm_summary"
  · simp only [if_pos h5]
    exact stripLimited_execPMSummary filters aggregation fields sort_by sort_order
      data.cachePM (some L) (some N)
  simp only [if_neg h5]
  by_cases h6 : target = "pm_comparison"
  · simp only [if_pos h6]
  simp only [if_neg h6]
  by_cases h7 : target = "cash"
  · simp only [if_pos h7]
  simp only [if_neg h7]
  by_cases h8 : target = "job_detail"
  · simp only [if_pos h8]
    exact stripLimited_execJobDetail filters data.rawBudgets data.rawActuals
      data.rawAPInvoices (some L) (some N)
  simp only [if_neg h8]
  by_cases h9 : target = "cost_codes"
  · simp only [if_pos h9]
    exact stripLimited_execCostCodes filters aggregation data.rawActuals data.rawBudgets
      (some L) (some N)
  simp only [if_neg h9]
  by_cases h10 : target = "customers"
  · simp only [if_pos h10]
    exact stripLimited_execCustomers filters sort_by sort_order data.rawBudgets
      data.rawARInvoices (some L) (some N)
  simp only [if_neg h10]

/-- C1 witness: limits 1 < 2 on a concrete jobs plan and data. -/
theorem nlq_totals_before_limit_witness :
    1 < 2 ∧
    stripLimited (execute_nlq_query
      ⟨"jobs", {}, "list", [], none, "desc", .val 1⟩ dataC1) =
    stripLimited (execute_nlq_query
      ⟨"jobs", {}, "list", [], none, "desc", .val 2⟩ dataC1) :=
  ⟨by decide, nlq_totals_before_limit "jobs" {} "list" [] none "desc" dataC1 1 2 (by decide)⟩

/-- C2: the claim fails on the code. For a closed job (billed 100, actual cost 50, no contract) the canonical rule gives margin 50 and aggregate_pm_metrics reports avg_margin 50, but the executor's by_pm branch reports margin 0, because it computes the flat (contract - budget_cost) / contract ratio and ignores the closed/active profit-basis split. -/
theorem by_pm_flat_margin_diverges :
    calculate_job_metrics jobRecC2 50 100 = .ok jmC2 ∧
    itemField (execute_nlq_query planC2 dataC2) 0 "margin" = some (.num 0) ∧
    (aggregate_pm_metrics [jmC2] true).map (fun r => r.avg_margin) = [50] ∧
    (0 : ℚ) ≠ 50 := by
  refine ⟨?_, ?_, ?_, by norm_num⟩
  · norm_num [calculate_job_metrics, jobRecC2, jmC2, pyFloat, pyOrZero, pyTruthy,
      except_ok_bind, except_pure_eq, round2, JobMetrics.mk.injEq]
  · have hred : itemField (execute_nlq_query planC2 dataC2) 0 "margin" =
        some (.num (if 0 < (0 : ℚ) + 0 then
          round1 (((0 : ℚ) + 0 - ((0 : ℚ) + 0)) / ((0 : ℚ) + 0) * 100) else 0)) := rfl
    rw [hred]
    norm_num
  · have hred : (aggregate_pm_metrics [jmC2] true).map (fun r => r.avg_margin) =
        [if 0 < 0 + 1 then round2 (((0 : ℚ) + 50) / ((0 + 1 : ℕ) : ℚ)) else 0] := rfl
    rw [hred]
    norm_num [round2, round_eq]

/-- C3: the claim fails on the code for the verb half. An unknown target does yield the typed invalid-plan error envelope, but an unrecognised aggregation verb on a jobs-target plan silently falls back to the default list envelope: the result has no error key and carries an items array. -/
theorem unknown_verb_falls_back_to_list :
    dictGet (execute_nlq_query planC3 {}) "error" = none ∧
    (dictGet (execute_nlq_query planC3 {}) "items").isSome = true ∧
    execute_nlq_query { target_data := "bogus" } {} =
      [("error", .str "Unknown target: bogus")] :=
  ⟨rfl, rfl, rfl⟩

/-- C4 amended: when a load fails during MetricsCache.refresh the exception propagates and the cache keeps exactly the assignments already performed: a jobs-load failure retains the previous snapshot entirely; an AR-load failure leaves the new jobs metrics with the old remaining collections; an AP-load failure leaves new jobs and AR metrics with the old remaining collections. -/
theorem refresh_error_state (st : MetricsCacheState) (loads : LoadOutcomes) (now : Nat) :
    (∀ e, run_jobs_etl loads.jobsLoad = .error e →
      MetricsCache.refresh st loads now = (st, .error e)) ∧
    (∀ jm e, run_jobs_etl loads.jobsLoad = .ok jm →
      run_ar_etl loads.arLoad = .error e →
      MetricsCache.refresh st loads now = ({ st with jobs_metrics := jm }, .error e)) ∧
    (∀ jm arm e, run_jobs_etl loads.jobsLoad = .ok jm →
      run_ar_etl loads.arLoad = .ok arm →
      run_ap_etl loads.apLoad = .error e →
      MetricsCache.refresh st loads now =
        ({ st with jobs_metrics := jm, ar_metrics := arm }, .error e)) := by
  refine ⟨?_, ?_, ?_⟩
  · intro e he
    simp [MetricsCache.refresh, he]
  · intro jm e hj he
    simp [MetricsCache.refresh, hj, he]
  · intro jm arm e hj ha he
    simp [MetricsCache.refresh, hj, ha, he]

/-- C4 counterexample: with a good jobs extract and a failing AR extract, refresh reports the failure but the cache afterwards mixes the new (empty) jobs collection with the old AR collection — the previous good snapshot is not retained intact. -/
theorem refresh_partial_replacement :
    (MetricsCache.refresh stC4 loadsC4 1).2 = .error "boom" ∧
    (MetricsCache.refresh stC4 loadsC4 1).1.jobs_metrics ≠ stC4.jobs_metrics ∧
    (MetricsCache.refresh stC4 loadsC4 1).1.ar_metrics = stC4.ar_metrics := by
  refine ⟨rfl, ?_, rfl⟩
  show ([] : List JobMetrics) ≠ [jmOld]
  simp

/-- C4 witness: the amended statement at the concrete failing-AR load outcomes. -/
theorem refresh_error_state_witness :
    run_jobs_etl loadsC4.jobsLoad = .ok [] ∧
    run_ar_etl loadsC4.arLoad = .error "boom" ∧
    MetricsCache.refresh stC4 loadsC4 1 =
      ({ stC4 with jobs_metrics := [] }, .error "boom") := by
  refine ⟨rfl, rfl, ?_⟩
  exact (refresh_error_state stC4 loadsC4 1).2.1 [] "boom" rfl rfl

/-- C5: for every job record and inputs, when the status is Closed calculate_job_metrics returns profit = billed - actual_cost, margin = profit/billed*100 when billed > 0 and 0 otherwise, valid_for_profit exactly when billed > 0 and actual_cost > 0, and basis actual; for every other status it returns profit = revised_contract - revised_cost, margin = profit/contract*100 when contract > 0 and 0 otherwise, valid_for_profit exactly when contract > 0 and revised_cost > 0, and basis projected — monetary and percentage outputs rounded to 2 decimals. -/
theorem job_profit_margin_rules (job : JobRec) (actual_cost billed bc c oc og : ℚ)
    (hbc : pyFloat (pyOrZero job.revised_cost) = .ok bc)
    (hc : pyFloat (pyOrZero job.revised_contract) = .ok c)
    (hoc : pyFloat (pyOrZero job.original_contract) = .ok oc)
    (hog : pyFloat (pyOrZero job.original_cost) = .ok og) :
    ∃ m, calculate_job_metrics job actual_cost billed = .ok m ∧
      (job.job_status = "C" →
        m.profit = round2 (billed - actual_cost) ∧
        m.margin = (if 0 < billed then round2 ((billed - actual_cost) / billed * 100) else 0) ∧
        (m.valid_for_profit = true ↔ 0 < billed ∧ 0 < actual_cost) ∧
        m.profit_basis = "actual") ∧
      (job.job_status ≠ "C" →
        m.profit = round2 (c - bc) ∧
        m.margin = (if 0 < c then round2 ((c - bc) / c * 100) else 0) ∧
        (m.valid_for_profit = true ↔ 0 < c ∧ 0 < bc) ∧
        m.profit_basis = "projected") := by
  simp only [calculate_job_metrics, hbc, hc, hoc, hog, except_ok_bind, except_pure_eq]
  refine ⟨_, rfl, ?_, ?_⟩
  · intro hst
    refine ⟨?_, ?_, ?_, ?_⟩ <;>
      by_cases hb : 0 < billed <;>
        simp [hst, hb, round2_zero, decide_eq_true_eq]
  · intro hst
    refine ⟨?_, ?_, ?_, ?_⟩ <;>
      by_cases hcz : 0 < c <;>
        simp [hst, hcz, round2_zero, decide_eq_true_eq]

/-- C5 witness: a concrete closed job with billed 100 and actual cost 40. -/
theorem job_profit_margin_rules_witness :
    jobC5.job_status = "C" ∧
      ∃ m, calculate_job_metrics jobC5 40 100 = .ok m ∧
        m.profit = round2 (100 - 40) ∧
        m.margin = round2 ((100 - 40) / 100 * 100) ∧
        m.valid_for_profit = true ∧
        m.profit_basis = "actual" := by
  obtain ⟨m, hm, hclosed, -⟩ :=
    job_profit_margin_rules jobC5 40 100 3 7 0 0 rfl rfl rfl rfl
  obtain ⟨h1, h2, h3, h4⟩ := hclosed rfl
  refine ⟨rfl, m, hm, h1, ?_, ?_, h4⟩
  · rw [h2, if_pos (by norm_num)]
  · rw [h3]
    norm_num

/-- C6: when revised_cost > 0, percent_complete is actual/budget*100 capped at 100 while earned_revenue is (actual/budget)*contract with no cap; when revised_cost <= 0 both are 0 (outputs rounded to 2 decimals). -/
theorem job_completion_earned_rules (job : JobRec) (actual_cost billed bc c oc og : ℚ)
    (hbc : pyFloat (pyOrZero job.revised_cost) = .ok bc)
    (hc : pyFloat (pyOrZero job.revised_contract) = .ok c)
    (hoc : pyFloat (pyOrZero job.original_contract) = .ok oc)
    (hog : pyFloat (pyOrZero job.original_cost) = .ok og) :
    ∃ m, calculate_job_metrics job actual_cost billed = .ok m ∧
      (0 < bc →
        m.percent_complete = round2 (min ((actual_cost / bc) * 100) 100) ∧
        m.earned_revenue = round2 ((actual_cost / bc) * c)) ∧
      (bc ≤ 0 →
        m.percent_complete = 0 ∧ m.earned_revenue = 0) := by
  simp only [calculate_job_metrics, hbc, hc, hoc, hog, except_ok_bind, except_pure_eq]
  refine ⟨_, rfl, ?_, ?_⟩
  · intro hpos
    constructor <;> simp [hpos]
  · intro hle
    constructor <;> simp [not_lt.mpr hle, round2_zero]

/-- C6 witness: budget 80, actual 40, contract 100. -/
theorem job_completion_earned_rules_witness :
    (0:ℚ) < 80 ∧
      ∃ m, calculate_job_metrics jobC6 40 90 = .ok m ∧
        m.percent_complete = round2 (min ((40 / 80) * 100) 100) ∧
        m.earned_revenue = round2 ((40 / 80) * 100) := by
  obtain ⟨m, hm, hpos, -⟩ :=
    job_completion_earned_rules jobC6 40 90 80 100 0 0 rfl rfl rfl rfl
  obtain ⟨h1, h2⟩ := hpos (by norm_num)
  exact ⟨by norm_num, m, hm, h1, h2⟩

/-- C7: in PM aggregation, every output row's avg_margin is the sum of margin over that PM's valid-for-profit jobs divided by the count of those jobs, and avg_completion is the sum of percent_complete over that PM's with-budget jobs divided by their count; in the jobs summary the same ratios divide by their own denominator counts — never by the total row count. -/
theorem avg_fields_divide_by_own_counts (jobs : List JobMetrics) (active_only : Bool)
    (row : PMSummary) (hrow : row ∈ aggregate_pm_metrics jobs true) :
    (row.avg_margin =
      if ((jobs.filter (pmRelevant row.project_manager)).filter
            (fun j => j.valid_for_profit)).length ≠ 0 then
        round2 ((((jobs.filter (pmRelevant row.project_manager)).filter
              (fun j => j.valid_for_profit)).map (fun j => j.margin)).sum /
          ((((jobs.filter (pmRelevant row.project_manager)).filter
              (fun j => j.valid_for_profit)).length : ℚ)))
      else 0) ∧
    (row.avg_completion =
      if ((jobs.filter (pmRelevant row.project_manager)).filter
            (fun j => j.has_budget)).length ≠ 0 then
        round2 ((((jobs.filter (pmRelevant row.project_manager)).filter
              (fun j => j.has_budget)).map (fun j => j.percent_complete)).sum /
          ((((jobs.filter (pmRelevant row.project_manager)).filter
              (fun j => j.has_budget)).length : ℚ)))
      else 0) ∧
    ((get_jobs_summary jobs active_only).avg_margin =
      round2 (if ((if active_only then jobs.filter (fun j => j.job_status = "A") else jobs).filter
            (fun j => j.valid_for_profit)).length ≠ 0 then
        ((((if active_only then jobs.filter (fun j => j.job_status = "A") else jobs).filter
              (fun j => j.valid_for_profit)).map (fun j => j.margin)).sum) /
          ((((if active_only then jobs.filter (fun j => j.job_status = "A") else jobs).filter
              (fun j => j.valid_for_profit)).length : ℚ))
      else 0)) ∧
    ((get_jobs_summary jobs active_only).avg_completion =
      round2 (if ((if active_only then jobs.filter (fun j => j.job_status = "A") else jobs).filter
            (fun j => j.has_budget)).length ≠ 0 then
        ((((if active_only then jobs.filter (fun j => j.job_status = "A") else jobs).filter
              (fun j => j.has_budget)).map (fun j => j.percent_complete)).sum) /
          ((((if active_only then jobs.filter (fun j => j.job_status = "A") else jobs).filter
              (fun j => j.has_budget)).length : ℚ))
      else 0)) := by
  have hmem : row ∈ (pmTable jobs true).map (fun kv => pmFinalize kv.1 kv.2) := by
    have := hrow
    unfold aggregate_pm_metrics sortDescBy at this
    exact (mem_stableSort _ _ _).mp this
  obtain ⟨kv, hkv, hroweq⟩ := List.mem_map.mp hmem
  obtain ⟨k, acc⟩ := kv
  have hnd : ((pmTable jobs true).map Prod.fst).Nodup := by
    unfold pmTable
    exact nodupKeys_pmTable_fold true jobs [] (by simp)
  have hlook : lookupAssoc (pmTable jobs true) k = some acc :=
    lookupAssoc_of_mem_nodup _ hnd k acc hkv
  have hchar := lookup_pmTable_fold k jobs []
  rw [show (pmTable jobs true) = jobs.foldl (pmFoldStep true) [] from rfl] at hlook
  rw [hlook] at hchar
  have hacc : acc = (jobs.filter (pmRelevant k)).foldl pmAccAdd ({} : PMAcc) := by
    by_cases hemp : (jobs.filter (pmRelevant k)).isEmpty = true
    · simp [lookupAssoc, hemp] at hchar
    · simp [lookupAssoc, hemp] at hchar
      exact hchar
  obtain ⟨hms, hvc, hcs, hbc⟩ := pmAccAdd_fold_fields (jobs.filter (pmRelevant k)) {}
  have hkeq : row.project_manager = k := by
    rw [← hroweq]
    rfl
  have hrm : row.avg_margin = (pmFinalize k acc).avg_margin := by rw [← hroweq]
  have hrc : row.avg_completion = (pmFinalize k acc).avg_completion := by rw [← hroweq]
  refine ⟨?_, ?_, ?_, ?_⟩
  · rw [hrm, hkeq]
    simp only [pmFinalize]
    rw [hacc, hms, hvc]
    simp only [zero_add, Nat.pos_iff_ne_zero]
  · rw [hrc, hkeq]
    simp only [pmFinalize]
    rw [hacc, hcs, hbc]
    simp only [zero_add, Nat.pos_iff_ne_zero]
  · simp only [get_jobs_summary]
  · simp only [get_jobs_summary]

/-- C7 witness, Scenario E: a PM with valid jobs of margin 10 and 30 plus one invalid job gets avg_margin 20. -/
theorem avg_fields_divide_by_own_counts_witness :
    rowE ∈ aggregate_pm_metrics jobsE true ∧ rowE.avg_margin = 20 := by
  have hmem : rowE ∈ aggregate_pm_metrics jobsE true := by
    rw [show aggregate_pm_metrics jobsE true = [rowE] from rfl]
    exact List.mem_singleton.mpr rfl
  have h := (avg_fields_divide_by_own_counts jobsE false rowE hmem).1
  refine ⟨hmem, ?_⟩
  rw [h]
  have e1 : pmRelevant rowE.project_manager jE1 = true := by decide
  have e2 : pmRelevant rowE.project_manager jE2 = true := by decide
  have e3 : pmRelevant rowE.project_manager jE3 = true := by decide
  have v1 : jE1.valid_for_profit = true := rfl
  have v2 : jE2.valid_for_profit = true := rfl
  have v3 : jE3.valid_for_profit = false := rfl
  have m1 : jE1.margin = 10 := rfl
  have m2 : jE2.margin = 30 := rfl
  simp only [jobsE, List.filter_cons, List.filter_nil, e1, e2, e3, v1, v2, v3, if_true,
    Bool.false_eq_true, if_false, List.length_cons, List.length_nil, List.map_cons,
    List.map_nil, List.sum_cons, List.sum_nil, m1, m2]
  norm_num [round2, round_eq]

/-- C8 amended: days_outstanding of a computed AR or AP invoice metric equals int(float(raw)) with no clamping, so it is non-negative exactly when the raw value is non-negative (a missing value counts as 0). -/
theorem invoice_days_follow_raw (inv : RawARInvoice) (inv2 : RawAPInvoice)
    (cd r d ia rem r2 d2 ia2 : ℚ)
    (hcd : pyFloat (pyOrZero inv.calculated_amount_due) = .ok cd)
    (hcdpos : 0 < cd)
    (hr : pyFloat (pyOrZero inv.retainage_amount) = .ok r)
    (hd : pyFloat (pyOrZero inv.days_outstanding) = .ok d)
    (hia : pyFloat (pyOrZero inv.invoice_amount) = .ok ia)
    (hrem : pyFloat (pyOrZero inv2.remaining_balance) = .ok rem)
    (hrempos : 0 < rem)
    (hvend : pyStrip inv2.vendor_name ∉ EXCLUDED_AP_VENDORS)
    (hr2 : pyFloat (pyOrZero inv2.retainage_amount) = .ok r2)
    (hd2 : pyFloat (pyOrZero inv2.days_outstanding) = .ok d2)
    (hia2 : pyFloat (pyOrZero inv2.invoice_amount) = .ok ia2) :
    (∃ m, calculate_ar_invoice_metrics inv = .ok (some m) ∧
      m.days_outstanding = truncQ d ∧ (0 ≤ d → 0 ≤ m.days_outstanding)) ∧
    (∃ m, calculate_ap_invoice_metrics inv2 = .ok (some m) ∧
      m.days_outstanding = truncQ d2 ∧ (0 ≤ d2 → 0 ≤ m.days_outstanding)) := by
  constructor
  · simp only [calculate_ar_invoice_metrics, hcd, hr, hd, hia, except_ok_bind,
      except_pure_eq, if_neg (not_le.mpr hcdpos)]
    exact ⟨_, rfl, rfl, fun h => truncQ_nonneg h⟩
  · simp only [calculate_ap_invoice_metrics, hrem, hr2, hd2, hia2, except_ok_bind,
      except_pure_eq, if_neg (not_le.mpr hrempos), if_neg hvend]
    exact ⟨_, rfl, rfl, fun h => truncQ_nonneg h⟩

/-- C8 counterexample: an unpaid AR invoice whose raw days_outstanding is -5 produces a metric with days_outstanding = -5 < 0 — the claimed invariant days_outstanding >= 0 does not hold for negative raw inputs. -/
theorem ar_days_negative_passthrough :
    arDaysOf (calculate_ar_invoice_metrics arNegDays) = some (-5) ∧ (-5 : ℤ) < 0 := by
  constructor
  · norm_num [arDaysOf, calculate_ar_invoice_metrics, arNegDays, pyFloat, pyOrZero, pyTruthy,
      truncQ, except_ok_bind, except_pure_eq]
    rw [show ((-5 : ℚ)) = ((-5 : ℤ) : ℚ) by norm_num, Int.ceil_intCast]
  · norm_num

/-- C8 witness: concrete AR and AP invoices with non-negative raw days. -/
theorem invoice_days_follow_raw_witness :
    (∃ m, calculate_ar_invoice_metrics invC8ar = .ok (some m) ∧ 0 ≤ m.days_outstanding) ∧
    (∃ m, calculate_ap_invoice_metrics invC8ap = .ok (some m) ∧ 0 ≤ m.days_outstanding) := by
  obtain ⟨⟨m1, hm1, -, himp1⟩, ⟨m2, hm2, -, himp2⟩⟩ :=
    invoice_days_follow_raw invC8ar invC8ap 50 0 10 0 50 0 0 0
      rfl (by norm_num) rfl rfl rfl rfl (by norm_num) (by decide) rfl rfl rfl
  exact ⟨⟨m1, hm1, himp1 (by norm_num)⟩, ⟨m2, hm2, himp2 le_rfl⟩⟩

/-- C9 amended: calculate_job_metrics raises no exception whenever each numeric field coerces — it is missing, None, empty or zero-like (coerced to 0 by the or-guard) or parses as a float; every division in the function is guarded by a positivity test on its denominator. -/
theorem job_metrics_total_on_coercible (job : JobRec) (actual_cost billed : ℚ)
    (h1 : ∃ q, pyFloat (pyOrZero job.revised_cost) = .ok q)
    (h2 : ∃ q, pyFloat (pyOrZero job.revised_contract) = .ok q)
    (h3 : ∃ q, pyFloat (pyOrZero job.original_contract) = .ok q)
    (h4 : ∃ q, pyFloat (pyOrZero job.original_cost) = .ok q) :
    ∃ m, calculate_job_metrics job actual_cost billed = .ok m := by
  obtain ⟨bc, hbc⟩ := h1
  obtain ⟨c, hc⟩ := h2
  obtain ⟨oc, hoc⟩ := h3
  obtain ⟨og, hog⟩ := h4
  simp only [calculate_job_metrics, hbc, hc, hoc, hog, except_ok_bind, except_pure_eq]
  exact ⟨_, rfl⟩

/-- C9 witness: a record mixing missing, empty-string and numeric fields. -/
theorem job_metrics_total_on_coercible_witness :
    ∃ m, calculate_job_metrics jobC9 1 2 = .ok m :=
  job_metrics_total_on_coercible jobC9 1 2 ⟨0, rfl⟩ ⟨0, rfl⟩ ⟨5, rfl⟩ ⟨5, rfl⟩

/-- C9 counterexample: a record whose revised_cost holds the non-numeric string abc makes calculate_job_metrics raise (float raises ValueError, which propagates), so the function is not total on arbitrary non-numeric fields. -/
theorem job_metrics_nonnumeric_raises :
    calculate_job_metrics jobC9bad 0 0 =
      .error "could not convert string to float: abc" := rfl

/-- C10: for every jobs-target query plan, deleting the jobs whose project-manager name contains the substring josh angelo (case-insensitively) from the cache does not change the result envelope at all — those jobs are removed before the plan's filters and verb apply, so they never appear in the items list and never contribute to any total, count, average or grouped row, regardless of filters, verb or limit. -/
theorem jobs_target_excludes_josh (plan : Plan) (data : NLQData)
    (h : plan.target_data = "jobs") :
    execute_nlq_query plan { data with cacheJobs := data.cacheJobs.filter joshFree } =
    execute_nlq_query plan data := by
  simp only [execute_nlq_query, h, if_pos]
  simp only [execJobs, jobsFiltered_filter_joshFree]

/-- C10 witness: a concrete jobs-target plan and data. -/
theorem jobs_target_excludes_josh_witness :
    planC10.target_data = "jobs" ∧
    execute_nlq_query planC10
      { ({} : NLQData) with cacheJobs := ({} : NLQData).cacheJobs.filter joshFree } =
    execute_nlq_query planC10 {} :=
  ⟨rfl, jobs_target_excludes_josh planC10 {} rfl⟩
